import Mathlib

/-!
Verification development for the inspekta-wa WhatsApp property-search bot.

Shallow embedding of the conversation state machine
(`app/services/session_service.py`: `UserSession`, `SessionManager`) and of
the property search service (`app/services/property_service.py`:
`PropertySearchService.search_properties`, `extract_search_keywords`,
menu and message templates).

Modelling conventions:
- Python strings are `String`; scanning works over `String.data` char lists.
- Prices are `ℚ` (the Python code uses floats; all formulas are exact here).
- The listings table is a `List Listing`; the database call is an
  `Except String (List Listing)` so that a raising gateway (the `except`
  branch of `search_properties`) can be modelled as `.error`.
- Python's process-level `hash` builtin is an unknown but fixed function,
  passed in as a parameter `pyHash : String → Int`.
- `datetime.now()` timestamps are `Nat` seconds passed in as `now`.
- The navigation stack (`list.append`/`list.pop` at the Python list tail)
  is modelled with the most recent frame at the HEAD of a Lean list.
-/

namespace Inspekta

/-! ## String helpers -/

/-- Substring test, `needle in haystack` of Python, over char lists. -/
def listSub (n : List Char) : List Char → Bool
  | [] => n.isEmpty
  | c :: t => n.isPrefixOf (c :: t) || listSub n t

/-- Substring test on strings (Python `in`). -/
def strHasSub (n h : String) : Bool := listSub n.data h.data

/-- Python `str.lower()` (ASCII case mapping). -/
def strLower (s : String) : String := ⟨s.data.map Char.toLower⟩

/-- Python `str.upper()` (ASCII case mapping). -/
def strUpper (s : String) : String := ⟨s.data.map Char.toUpper⟩

/-- Drop leading whitespace (the committed part of a `\s*` in the regexes). -/
def dropWs : List Char → List Char
  | [] => []
  | c :: t => if c.isWhitespace then dropWs t else c :: t

/-- Python `str.strip()`: drop leading and trailing whitespace. -/
def strTrim (s : String) : String := ⟨(dropWs ((dropWs s.data).reverse)).reverse⟩

/-- Split a maximal leading digit run (`\d+`, greedy). -/
def spanDigits : List Char → List Char × List Char
  | [] => ([], [])
  | c :: t =>
    if c.isDigit then
      let p := spanDigits t
      (c :: p.1, p.2)
    else ([], c :: t)

/-- Numeric value of a digit run. -/
def digitsToNat (ds : List Char) : Nat :=
  ds.foldl (fun a c => 10 * a + (c.toNat - 48)) 0

/-- Python `str.isdigit()`: non-empty and all digits. -/
def strIsDigit (s : String) : Bool :=
  !s.data.isEmpty && s.data.all (·.isDigit)

/-- Python `int(...)` on a digit string. -/
def strToNat (s : String) : Nat := digitsToNat s.data

/-- Python `str.title()` used on the property type: capitalize the first
letter of each alphabetic run, lowercase the rest. -/
def titleCaseAux : Bool → List Char → List Char
  | _, [] => []
  | prevAlpha, c :: t =>
    if c.isAlpha then
      (if prevAlpha then c.toLower else c.toUpper) :: titleCaseAux true t
    else
      c :: titleCaseAux false t

/-- Python `str.title()` on a string. -/
def strTitle (s : String) : String := ⟨titleCaseAux false s.data⟩

/-! ## Keyword extractor (`extract_search_keywords`)

The two price regexes are modelled position by position, with the exact
backtracking the Python `re` engine performs on these patterns:
`\d+` / the trailing `(?:\.\d+)?` digits / `\s*` are committed greedy (no
shorter match can ever let the fixed continuation succeed), the
`(?:,\d{3})*` star backtracks over the number of comma groups, and the
optional decimal part backtracks between present and absent. -/

/-- The `\s*(?:million|m)` continuation ending both price patterns:
after whitespace, both alternatives begin with `m`. -/
def tailMatches (cs : List Char) : Bool :=
  match dropWs cs with
  | 'm' :: _ => true
  | _ => false

/-- Value of an integer part plus a (possibly empty) decimal digit part. -/
def numVal (intDs fracDs : List Char) : ℚ :=
  (digitsToNat intDs : ℚ) + (digitsToNat fracDs : ℚ) / ((10 : ℚ) ^ fracDs.length)

/-- Candidates for the `(?:,\d{3})*` star, most comma groups first
(the order a greedy star backtracks in).  Each candidate is the digits
accumulated so far and the rest of the input at that choice point. -/
def groupCandidates (acc : List Char) : List Char → List (List Char × List Char)
  | ',' :: d1 :: d2 :: d3 :: r =>
    if d1.isDigit && d2.isDigit && d3.isDigit then
      groupCandidates (acc ++ [d1, d2, d3]) r ++ [(acc, ',' :: d1 :: d2 :: d3 :: r)]
    else [(acc, ',' :: d1 :: d2 :: d3 :: r)]
  | r => [(acc, r)]

/-- Try one star candidate: the optional decimal part (present first, then
absent), then the `\s*(?:million|m)` continuation. -/
def decCandidate (digits : List Char) : List Char → Option ℚ
  | '.' :: r =>
    let p := spanDigits r
    if !p.1.isEmpty && tailMatches p.2 then some (numVal digits p.1)
    else if tailMatches ('.' :: r) then some (numVal digits [])
    else none
  | r => if tailMatches r then some (numVal digits []) else none

/-- First succeeding star candidate. -/
def firstCandidate : List (List Char × List Char) → Option ℚ
  | [] => none
  | (d, r) :: t =>
    match decCandidate d r with
    | some v => some v
    | none => firstCandidate t

/-- Match `(\d+(?:,\d{3})*(?:\.\d+)?)\s*(?:million|m)` anchored at this
position; returns the captured number's value (commas stripped). -/
def numTailVal (cs : List Char) : Option ℚ :=
  let p := spanDigits cs
  if p.1.isEmpty then none
  else firstCandidate (groupCandidates p.1 p.2)

/-- The currency-marker alternation `(?:₦|naira|ngn)`, tried in pattern
order; the alternatives are pairwise prefix-incompatible, so at most one
can match at a given position. -/
def currencyMarkers : List (List Char) := [['₦'], "naira".data, "ngn".data]

/-- First listed marker that is a prefix here, with the rest of the input. -/
def findFirstPrefix : List (List Char) → List Char → Option (List Char)
  | [], _ => none
  | m :: ms, cs => if m.isPrefixOf cs then some (cs.drop m.length) else findFirstPrefix ms cs

/-- The exact-price pattern `(?:₦|naira|ngn)\s*NUM\s*(?:million|m)`
anchored at this position (marker required). -/
def exactAt (cs : List Char) : Option ℚ :=
  match findFirstPrefix currencyMarkers cs with
  | some r => numTailVal (dropWs r)
  | none => none

/-- `re.search` for the exact-price pattern: leftmost position that
matches wins. -/
def findExactVal : List Char → Option ℚ
  | [] => none
  | c :: t =>
    match exactAt (c :: t) with
    | some v => some v
    | none => findExactVal t

/-- The ceiling pattern `under\s*(?:₦|naira|ngn)?\s*NUM\s*(?:million|m)`
anchored at this position.  The optional marker backtracks to the empty
alternative when the number fails after it. -/
def underAt (cs : List Char) : Option ℚ :=
  if "under".data.isPrefixOf cs then
    let r := dropWs (cs.drop 5)
    match findFirstPrefix currencyMarkers r with
    | some r2 =>
      match numTailVal (dropWs r2) with
      | some v => some v
      | none => numTailVal r
    | none => numTailVal r
  else none

/-- `re.search` for the ceiling pattern. -/
def findUnderVal : List Char → Option ℚ
  | [] => none
  | c :: t =>
    match underAt (c :: t) with
    | some v => some v
    | none => findUnderVal t

/-- The bedroom pattern `(\d+)\s*bedroom` anchored at this position. -/
def bedroomAt (cs : List Char) : Option Nat :=
  let p := spanDigits cs
  if p.1.isEmpty then none
  else if "bedroom".data.isPrefixOf (dropWs p.2) then some (digitsToNat p.1) else none

/-- `re.search` for the bedroom pattern. -/
def findBedrooms : List Char → Option Nat
  | [] => none
  | c :: t =>
    match bedroomAt (c :: t) with
    | some v => some v
    | none => findBedrooms t

/-- Filter mapping produced by the extractor and consumed by
`search_properties`; absent dict keys are `none`. -/
structure Filters where
  city : Option String
  state : Option String
  type : Option String
  bedrooms : Option Nat
  max_price : Option ℚ
  min_price : Option ℚ
deriving DecidableEq, Repr

/-- The empty filter dict `{}`. -/
def emptyFilters : Filters :=
  { city := none, state := none, type := none, bedrooms := none,
    max_price := none, min_price := none }

/-- Property type keyword sets, first matching set wins, in source order. -/
def typeOf (ml : String) : Option String :=
  if strHasSub "apartment" ml || strHasSub "flat" ml then some "APARTMENT"
  else if strHasSub "house" ml || strHasSub "duplex" ml || strHasSub "bungalow" ml then
    some "HOUSE"
  else if strHasSub "office" ml || strHasSub "commercial" ml then some "OFFICE"
  else none

/-- City gazetteer, checked in dict insertion order, first match breaks. -/
def cityOf (ml : String) : Option String :=
  if strHasSub "lagos" ml then some "Lagos"
  else if strHasSub "abuja" ml then some "Abuja"
  else if strHasSub "port harcourt" ml then some "Port Harcourt"
  else if strHasSub "kano" ml then some "Kano"
  else if strHasSub "ibadan" ml then some "Ibadan"
  else none

/-- `PropertySearchService.extract_search_keywords`.  The ceiling rule
fills `max_price`; the exact-price rule then overwrites both bounds with
the 20% band, but only when `under` is absent from the whole message. -/
def extractSearchKeywords (message : String) : Filters :=
  let ml := strLower message
  let cs := ml.data
  let bedrooms := findBedrooms cs
  let ptype := typeOf ml
  let city := cityOf ml
  let maxP :=
    match findUnderVal cs with
    | some v => some (v * 1000000)
    | none => none
  match findExactVal cs with
  | some t =>
    if !(strHasSub "under" ml) then
      { city := city, state := none, type := ptype, bedrooms := bedrooms,
        min_price := some (t * 1000000 * (4 / 5 : ℚ)),
        max_price := some (t * 1000000 * (6 / 5 : ℚ)) }
    else
      { city := city, state := none, type := ptype, bedrooms := bedrooms,
        min_price := none, max_price := maxP }
  | none =>
    { city := city, state := none, type := ptype, bedrooms := bedrooms,
      min_price := none, max_price := maxP }

/-- Python truthiness of a dict lookup (`filters.get(k)`) for a string
value: present and non-empty. -/
def optStrTruthy : Option String → Bool
  | some s => !(s == "")
  | none => false

/-- Python truthiness for an integer value: present and non-zero. -/
def optNatTruthy : Option Nat → Bool
  | some n => !(n == 0)
  | none => false

/-- Python truthiness for a numeric price value: present and non-zero. -/
def optQTruthy : Option ℚ → Bool
  | some q => !(q == 0)
  | none => false

/-- Non-emptiness of the filter dict (`if filters:`); a key set to a falsy
value still counts (the dict is non-empty). -/
def filtersNonEmpty (f : Filters) : Bool :=
  f.city.isSome || f.state.isSome || f.type.isSome || f.bedrooms.isSome ||
    f.max_price.isSome || f.min_price.isSome

/-! ## Listings and the search query (`search_properties`) -/

/-- A row of the `"Listing"` table as the service reads it. -/
structure Listing where
  id : String
  title : String
  address : String
  city : String
  state : String
  price : ℚ
  type : String
  bedrooms : Nat
  bathrooms : Nat
  area : Option Nat
  description : String
  status : String
  featured : Bool
  createdAt : Nat
deriving DecidableEq, Repr

/-- A listing with every field at the value an absent dict key defaults to. -/
def defaultListing : Listing :=
  { id := "", title := "", address := "", city := "", state := "", price := 0,
    type := "", bedrooms := 0, bathrooms := 0, area := none, description := "",
    status := "", featured := false, createdAt := 0 }

instance : Inhabited Listing := ⟨defaultListing⟩

/-- The dynamically-built WHERE clauses: each filter key contributes its
predicate only when its value is truthy (`if filters.get(k):`). -/
def matchesFilters (f : Filters) (l : Listing) : Bool :=
  (!(optStrTruthy f.city) || (strLower l.city == strLower (f.city.getD ""))) &&
  (!(optStrTruthy f.state) || (strLower l.state == strLower (f.state.getD ""))) &&
  (!(optStrTruthy f.type) || (l.type == strUpper (f.type.getD ""))) &&
  (!(optNatTruthy f.bedrooms) || (l.bedrooms == f.bedrooms.getD 0)) &&
  (!(optQTruthy f.max_price) || decide (l.price ≤ f.max_price.getD 0)) &&
  (!(optQTruthy f.min_price) || decide (f.min_price.getD 0 ≤ l.price))

/-- `ORDER BY featured DESC, "createdAt" DESC`: `a` may come before `b`. -/
def listingBefore (a b : Listing) : Prop :=
  (if b.featured then 1 else 0) < (if a.featured then 1 else 0) ∨
    ((if b.featured then 1 else 0) = (if a.featured then (1 : Nat) else 0) ∧
      b.createdAt ≤ a.createdAt)

instance : DecidableRel listingBefore := fun a b => by
  unfold listingBefore; infer_instance

instance : IsTotal Listing listingBefore :=
  ⟨fun a b => by unfold listingBefore; omega⟩

instance : IsTrans Listing listingBefore :=
  ⟨fun a b c hab hbc => by unfold listingBefore at *; omega⟩

/-- `PropertySearchService.search_properties`: on any exception the whole
body is caught, logged, and an empty list is returned; otherwise the rows
with `status = 'ACTIVE'` and all truthy filter predicates are ordered by
`featured DESC, "createdAt" DESC` and capped at `limit`. -/
def searchProperties (db : Except String (List Listing)) (f : Filters)
    (limit : Nat) : List Listing :=
  match db with
  | .error _ => []
  | .ok rows =>
    (List.insertionSort listingBefore
      (rows.filter fun l => (l.status == "ACTIVE") && matchesFilters f l)).take limit

/-! ## Menu and message templates (`property_service` text blocks) -/

/-- `get_main_menu`. -/
def mainMenu : String :=
  "🏠 *INSPEKTA PROPERTY SEARCH*\n\nWelcome! How would you like to search for properties?\n\n*Quick Search:*\n1️⃣ Show all available properties\n2️⃣ Properties under ₦50M\n3️⃣ Properties in Lagos\n4️⃣ Properties in Abuja\n\n*Detailed Search:*\n5️⃣ Search by property type\n6️⃣ Search by number of bedrooms\n7️⃣ Search by price range\n8️⃣ Search by location\n\n*Or simply type your request:*\n💬 \"Show me 3 bedroom apartments in Lagos\"\n💬 \"Houses under 40 million naira\"\n💬 \"Office spaces in Abuja\"\n\nReply with a number (1-8) or type your search request."

/-- `get_property_type_menu`. -/
def propertyTypeMenu : String :=
  "🏢 *SELECT PROPERTY TYPE*\n\n1️⃣ Apartments/Flats\n2️⃣ Houses/Duplexes\n3️⃣ Office Spaces\n4️⃣ All types\n\n0️⃣ Back to main menu\n\nReply with your choice (1-4):"

/-- `get_bedroom_menu`. -/
def bedroomMenu : String :=
  "🛏️ *SELECT NUMBER OF BEDROOMS*\n\n1️⃣ 1 Bedroom\n2️⃣ 2 Bedrooms\n3️⃣ 3 Bedrooms\n4️⃣ 4 Bedrooms\n5️⃣ 5+ Bedrooms\n6️⃣ Any number\n\n0️⃣ Back to main menu\n\nReply with your choice (1-6):"

/-- `get_location_menu`. -/
def locationMenu : String :=
  "📍 *SELECT LOCATION*\n\n1️⃣ Lagos\n2️⃣ Abuja\n3️⃣ Port Harcourt\n4️⃣ Kano\n5️⃣ Ibadan\n6️⃣ All locations\n\n0️⃣ Back to main menu\n\nReply with your choice (1-6):"

/-- `get_price_menu`. -/
def priceMenu : String :=
  "💰 *SELECT PRICE RANGE*\n\n1️⃣ Under ₦25M\n2️⃣ ₦25M - ₦50M\n3️⃣ ₦50M - ₦100M\n4️⃣ ₦100M - ₦200M\n5️⃣ Above ₦200M\n6️⃣ Any price\n\n0️⃣ Back to main menu\n\nReply with your choice (1-6):"

/-- Comma-insertion helper on reversed digit lists. -/
def commaRev : List Char → List Char
  | a :: b :: c :: d :: r => a :: b :: c :: ',' :: commaRev (d :: r)
  | l => l

/-- Digits of a natural number grouped by thousands with commas
(Python `f\x7bx:,.0f\x7d` on a whole number). -/
def commaGroup (n : Nat) : String :=
  ⟨(commaRev (toString n).data.reverse).reverse⟩

/-- One-decimal rendering of a non-negative rational
(Python `f\x7bx:.1f\x7d`; ties rounded up here). -/
def fmt1dp (q : ℚ) : String :=
  let n := (q * 10 + 1 / 2).floor.toNat
  toString (n / 10) ++ "." ++ toString (n % 10)

/-- Price rendering used by the result list and the detail card:
`₦X.XM` at or above one million, comma-grouped naira below. -/
def fmtPrice (p : ℚ) : String :=
  if p ≥ 1000000 then "₦" ++ fmt1dp (p / 1000000) ++ "M"
  else "₦" ++ commaGroup (p + 1 / 2).floor.toNat

/-- `title[:30]` plus an ellipsis when truncated. -/
def truncTitle (t : String) : String :=
  ⟨t.data.take 30⟩ ++ (if t.data.length > 30 then "..." else "")

/-- `id[:8]` (the template appends a literal ellipsis after it). -/
def idPrefix8 (i : String) : String := ⟨i.data.take 8⟩

/-- One numbered entry of the search-result list. -/
def listingLine (i : Nat) (p : Listing) : String :=
  "*" ++ toString i ++ ". " ++ truncTitle p.title ++ "*\n" ++
  "📍 " ++ p.city ++ ", " ++ p.state ++ "\n" ++
  "💰 " ++ fmtPrice p.price ++ " | 🛏️ " ++ toString p.bedrooms ++ "BR | 🏢 " ++
    strTitle p.type ++ "\n" ++
  "🆔 " ++ idPrefix8 p.id ++ "...\n\n"

/-- Body of the `search_results` reply built by `_handle_search_results`. -/
def searchResultsMessage (props : List Listing) (desc : String) : String :=
  "🔍 *SEARCH RESULTS* for: *" ++ desc ++ "*\n\n" ++
  "Found " ++ toString props.length ++ " properties:\n\n" ++
  String.join ((List.range props.length).map fun i =>
    listingLine (i + 1) (props.getD i defaultListing)) ++
  "📱 *Select a property by typing its number (1-" ++ toString props.length ++ ")*\n" ++
  "💡 Type *back* to go back | Type *menu* for main menu"

/-- `format_property_message`: the detail card for one listing. -/
def formatPropertyMessage (p : Listing) : String :=
  let priceStr := fmtPrice p.price
  let areaStr :=
    match p.area with
    | some a => if a ≠ 0 then toString a ++ "sqm" else "Area not specified"
    | none => "Area not specified"
  let roomsStr :=
    if p.bedrooms ≠ 0 then toString p.bedrooms ++ "BR/" ++ toString p.bathrooms ++ "BA"
    else "Rooms not specified"
  let desc := ⟨p.description.data.take 200⟩ ++
    (if p.description.data.length > 200 then "..." else "")
  "🏠 *" ++ p.title ++ "*\n\n📍 *Location:* " ++ p.address ++ ", " ++ p.city ++ ", " ++
    p.state ++ "\n\n💰 *Price:* " ++ priceStr ++ "\n🏢 *Type:* " ++ strTitle p.type ++
    "\n🛏️ *Rooms:* " ++ roomsStr ++ "\n📐 *Area:* " ++ areaStr ++
    "\n\n📝 *Description:*\n" ++ desc ++ "\n\n🆔 *Property ID:* " ++ idPrefix8 p.id ++
    "...\n"

/-! ## Session data model (`UserSession`) -/

/-- One record of `conversation_history`. -/
structure HistEntry where
  ts : Nat
  htype : String
  content : String
deriving DecidableEq, Repr

/-- `context_data`: its shape is determined by the current context. -/
inductive ContextData where
  | empty
  | subMenu (menuType : String)
  | searchResults (results : List Listing) (searchDescription : String)
      (naturalQuery : Bool)
  | propertyDetail (prop : Listing)
deriving DecidableEq, Repr

/-- `context_data.get("results", [])`. -/
def cdResults : ContextData → List Listing
  | .searchResults r _ _ => r
  | _ => []

/-- `context_data.get("search_description", "Previous search")`. -/
def cdSearchDescription : ContextData → String
  | .searchResults _ d _ => d
  | _ => "Previous search"

/-- `context_data.get("menu_type")`. -/
def cdMenuType : ContextData → Option String
  | .subMenu m => some m
  | _ => none

/-- `context_data.get("property", \x7b\x7d)`. -/
def cdProperty : ContextData → Listing
  | .propertyDetail p => p
  | _ => defaultListing

/-- One saved frame of `navigation_stack`. -/
structure Frame where
  context : String
  menu : String
  step : Nat
  data : ContextData
  options : List String
deriving DecidableEq, Repr

/-- A reply produced by the state machine: response-type tag, text, and the
optional `count` field some replies carry. -/
structure Response where
  rtype : String
  message : String
  count : Option Nat
deriving DecidableEq, Repr

/-- `UserSession`: per-user volatile conversation state. -/
structure Session where
  userId : String
  name : String
  currentMenu : String
  searchFilters : Filters
  conversationStep : Nat
  lastActivity : Nat
  conversationHistory : List HistEntry
  selectedPropertyIds : List String
  currentContext : String
  contextData : ContextData
  availableOptions : List String
  navigationStack : List Frame
  lastSearchResults : List Listing
deriving DecidableEq, Repr

/-- `UserSession.__init__`. -/
def freshSession (uid nm : String) (now : Nat) : Session :=
  { userId := uid, name := nm, currentMenu := "main", searchFilters := emptyFilters,
    conversationStep := 0, lastActivity := now, conversationHistory := [],
    selectedPropertyIds := [], currentContext := "main", contextData := .empty,
    availableOptions := [], navigationStack := [], lastSearchResults := [] }

/-- `update_activity`. -/
def updateActivity (now : Nat) (s : Session) : Session :=
  { s with lastActivity := now }

/-- `add_to_history`: append, then keep only the last 20 entries. -/
def addToHistory (now : Nat) (s : Session) (mtype content : String) : Session :=
  let h := s.conversationHistory ++ [⟨now, mtype, content⟩]
  { s with conversationHistory := if h.length > 20 then h.drop (h.length - 20) else h }

/-- `set_context`: push the frame being left (skipped when the current
context is `main`), then install the new context, data and options. -/
def setContext (now : Nat) (s : Session) (context : String) (data : ContextData)
    (options : List String) : Session :=
  let s' :=
    if s.currentContext ≠ "main" then
      { s with navigationStack :=
          ⟨s.currentContext, s.currentMenu, s.conversationStep, s.contextData,
            s.availableOptions⟩ :: s.navigationStack }
    else s
  { s' with
    currentContext := context, contextData := data,
    availableOptions := options, lastActivity := now }

/-- `go_back`: pop and restore the most recent frame; `none` when the
stack is empty (the Python method returns `False`). -/
def goBack (now : Nat) (s : Session) : Option Session :=
  match s.navigationStack with
  | [] => none
  | f :: rest =>
    some { s with
      currentContext := f.context, currentMenu := f.menu,
      conversationStep := f.step, contextData := f.data,
      availableOptions := f.options, navigationStack := rest,
      lastActivity := now }

/-- `go_to_main_menu`: full reset to the main context. -/
def goToMainMenu (now : Nat) (s : Session) : Session :=
  { s with
    currentContext := "main", currentMenu := "main", conversationStep := 0,
    contextData := .empty,
    availableOptions := ["1", "2", "3", "4", "5", "6", "7", "8"],
    navigationStack := [], lastActivity := now }

/-! ## Message handlers (`SessionManager`) -/

/-- The global reset commands. -/
def menuWords : List String := ["menu", "start", "help", "main", "*"]

/-- The session-termination commands. -/
def quitWords : List String := ["quit", "exit", "stop", "end"]

/-- The recognized greeting words. -/
def greetingWords : List String :=
  ["hi", "hello", "hey", "good morning", "good afternoon", "good evening",
   "greetings", "hola", "howdy"]

/-- The four canned greeting templates, parameterized by the user's name. -/
def greetingTemplates (nm : String) : List String :=
  ["👋 Hi there, " ++ nm ++ "! Welcome to INSPEKTA Property Search!",
   "🏠 Hello " ++ nm ++ "! Ready to find your perfect property?",
   "👋 Hey " ++ nm ++ "! Let's find you an amazing property today!",
   "🌟 Hi " ++ nm ++ "! Welcome back to INSPEKTA Property Search!"]

/-- Rejection text of `_handle_main_menu_enhanced`. -/
def mainRejectMsg (message : String) : String :=
  "❌ Unrecognized input: \"" ++ message ++
  "\"\n\nPlease select a number (1-8) from the menu or try natural language like:\n• \"3 bedroom apartments in Lagos\"\n• \"Properties under 50 million\"\n\n💡 *Available commands:*\n• Type *menu* to return to main menu\n• Type *back* to go back one step\n\n" ++
  mainMenu

/-- The `(1-N)` range text used in selection prompts. -/
def rangeText (n : Nat) : String := "(1-" ++ toString n ++ ")"

/-- Rejection text of `_handle_search_results_selection`. -/
def searchRejectMsg (message : String) (resultCount : Nat) : String :=
  "❌ Unrecognized input: \"" ++ message ++
  "\"\n\nPlease select a property by typing a number " ++ rangeText resultCount ++
  "\n\n💡 *Available commands:*\n• Type *back* to go back\n• Type *menu* for main menu"

/-- Rejection text of `_handle_property_detail_options`. -/
def detailRejectMsg (message : String) : String :=
  "❌ Unrecognized input: \"" ++ message ++
  "\"\n\nPlease select an option:\n1️⃣ Show interest\n2️⃣ Schedule inspection\n\n💡 Type *back* to return to property details | Type *menu* for main menu"

/-- Rejection text shared by the bedroom, price and location sub-menus. -/
def subMenuRejectMsg16 (message : String) : String :=
  "❌ Unrecognized input: \"" ++ message ++
  "\"\n\nPlease select 1-6 or 0 to go back.\n\n💡 Type *back* to go back | Type *menu* for main menu"

/-- Rejection text of the property-type sub-menu. -/
def subMenuRejectMsg14 (message : String) : String :=
  "❌ Unrecognized input: \"" ++ message ++
  "\"\n\nPlease select 1-4 or 0 to go back.\n\n💡 Type *back* to go back | Type *menu* for main menu"

/-- `_handle_search_results`: zero results give a terminal `no_results`
reply without touching the session; otherwise the results are cached, the
`search_results` context installed, and the numbered list rendered. -/
def handleSearchResults (now : Nat) (s : Session) (props : List Listing)
    (desc : String) (naturalQuery : Bool) : Session × Response :=
  if props.isEmpty then
    (s, ⟨"no_results",
      "❌ No properties found for: *" ++ desc ++
        "*\n\nLet me show you our main search options:\n\n" ++ mainMenu, none⟩)
  else
    let s1 := { s with lastSearchResults := props }
    let options := ((List.range props.length).map fun i => toString (i + 1)) ++
      ["back", "*"]
    let s2 := setContext now s1 "search_results"
      (.searchResults props desc naturalQuery) options
    (s2, ⟨"search_results", searchResultsMessage props desc, some props.length⟩)

/-- `_show_property_details`. -/
def showPropertyDetails (now : Nat) (s : Session) (p : Listing) :
    Session × Response :=
  let s1 := setContext now s "property_detail" (.propertyDetail p)
    ["1", "2", "back", "*"]
  (s1, ⟨"property_detail",
    formatPropertyMessage p ++
      "\n\n🎯 *What would you like to do?*\n1️⃣ Show interest in this property\n2️⃣ Schedule an inspection\n\n💡 Type *back* to return to search results | Type *menu* for main menu",
    none⟩)

/-- `_handle_main_menu_enhanced`: digits 1-4 run preset queries, 5-8 open
sub-menus, anything else goes through the keyword extractor and is
rejected when no filter is found. -/
def handleMainMenuEnhanced (db : Except String (List Listing)) (now : Nat)
    (s : Session) (message : String) : Session × Response :=
  let t := strTrim message
  if t == "1" then
    handleSearchResults now s (searchProperties db emptyFilters 5)
      "Show all available properties" false
  else if t == "2" then
    handleSearchResults now s
      (searchProperties db { emptyFilters with max_price := some 50000000 } 5)
      "Properties under ₦50M" false
  else if t == "3" then
    handleSearchResults now s
      (searchProperties db { emptyFilters with city := some "Lagos" } 5)
      "Properties in Lagos" false
  else if t == "4" then
    handleSearchResults now s
      (searchProperties db { emptyFilters with city := some "Abuja" } 5)
      "Properties in Abuja" false
  else if t == "5" then
    (setContext now s "sub_menu" (.subMenu "property_type")
       ["1", "2", "3", "4", "0", "back", "*"],
     ⟨"menu", "✅ You selected: *Search by property type*\n\n" ++ propertyTypeMenu,
      none⟩)
  else if t == "6" then
    (setContext now s "sub_menu" (.subMenu "bedrooms")
       ["1", "2", "3", "4", "5", "6", "0", "back", "*"],
     ⟨"menu", "✅ You selected: *Search by number of bedrooms*\n\n" ++ bedroomMenu,
      none⟩)
  else if t == "7" then
    (setContext now s "sub_menu" (.subMenu "price")
       ["1", "2", "3", "4", "5", "6", "0", "back", "*"],
     ⟨"menu", "✅ You selected: *Search by price range*\n\n" ++ priceMenu, none⟩)
  else if t == "8" then
    (setContext now s "sub_menu" (.subMenu "location")
       ["1", "2", "3", "4", "5", "6", "0", "back", "*"],
     ⟨"menu", "✅ You selected: *Search by location*\n\n" ++ locationMenu, none⟩)
  else
    let f := extractSearchKeywords message
    if filtersNonEmpty f then
      handleSearchResults now s (searchProperties db f 5)
        ("Natural search: \"" ++ message ++ "\"") true
    else
      (s, ⟨"error", mainRejectMsg message, none⟩)

/-- `_handle_search_results_selection`. -/
def handleSearchResultsSelection (now : Nat) (s : Session) (message : String) :
    Session × Response :=
  let t := strTrim message
  let results := cdResults s.contextData
  if strIsDigit t then
    let sel := strToNat t
    if 1 ≤ sel ∧ sel ≤ results.length then
      showPropertyDetails now s (results.getD (sel - 1) defaultListing)
    else
      (s, ⟨"error", searchRejectMsg message results.length, none⟩)
  else
    (s, ⟨"error", searchRejectMsg message results.length, none⟩)

/-- `_handle_property_detail_options`: stub acknowledgments, no state
change on any input. -/
def handlePropertyDetailOptions (s : Session) (message : String) :
    Session × Response :=
  let t := strTrim message
  if t == "1" then
    (s, ⟨"interest",
      "✅ *Interest Recorded!*\n\nThank you for showing interest in this property. This feature is being developed.\n\n🔄 Coming soon:\n• Direct contact with agent\n• Save to favorites\n• Request more information\n\n💡 Type *back* to return to property details | Type *menu* for main menu",
      none⟩)
  else if t == "2" then
    (s, ⟨"inspection",
      "📅 *Schedule Inspection*\n\nScheduling feature is being developed.\n\n🔄 Coming soon:\n• Available time slots\n• Calendar integration\n• Agent coordination\n• Reminder notifications\n\n💡 Type *back* to return to property details | Type *menu* for main menu",
      none⟩)
  else
    (s, ⟨"error", detailRejectMsg message, none⟩)

/-- The `"🔙 Returning to main menu..."` reply used by the `0` option of
every sub-menu. -/
def subMenuZeroReply (now : Nat) (s : Session) : Session × Response :=
  (goToMainMenu now s,
   ⟨"menu", "🔙 Returning to main menu...\n\n" ++ mainMenu, none⟩)

/-- `_handle_property_type_selection`. -/
def handlePropertyTypeSelection (db : Except String (List Listing)) (now : Nat)
    (s : Session) (message : String) : Session × Response :=
  let t := strTrim message
  if t == "0" then subMenuZeroReply now s
  else if t == "1" then
    handleSearchResults now s
      (searchProperties db { emptyFilters with type := some "APARTMENT" } 5)
      "Property type: Apartments/Flats" false
  else if t == "2" then
    handleSearchResults now s
      (searchProperties db { emptyFilters with type := some "HOUSE" } 5)
      "Property type: Houses/Duplexes" false
  else if t == "3" then
    handleSearchResults now s
      (searchProperties db { emptyFilters with type := some "OFFICE" } 5)
      "Property type: Office Spaces" false
  else if t == "4" then
    handleSearchResults now s (searchProperties db emptyFilters 5)
      "Property type: All property types" false
  else
    (s, ⟨"error", subMenuRejectMsg14 message, none⟩)

/-- `_handle_bedroom_selection`. -/
def handleBedroomSelection (db : Except String (List Listing)) (now : Nat)
    (s : Session) (message : String) : Session × Response :=
  let t := strTrim message
  if t == "0" then subMenuZeroReply now s
  else if t == "1" then
    handleSearchResults now s
      (searchProperties db { emptyFilters with bedrooms := some 1 } 5)
      "Bedrooms: 1 Bedroom" false
  else if t == "2" then
    handleSearchResults now s
      (searchProperties db { emptyFilters with bedrooms := some 2 } 5)
      "Bedrooms: 2 Bedrooms" false
  else if t == "3" then
    handleSearchResults now s
      (searchProperties db { emptyFilters with bedrooms := some 3 } 5)
      "Bedrooms: 3 Bedrooms" false
  else if t == "4" then
    handleSearchResults now s
      (searchProperties db { emptyFilters with bedrooms := some 4 } 5)
      "Bedrooms: 4 Bedrooms" false
  else if t == "5" then
    handleSearchResults now s
      (searchProperties db { emptyFilters with bedrooms := some 5 } 5)
      "Bedrooms: 5+ Bedrooms" false
  else if t == "6" then
    handleSearchResults now s (searchProperties db emptyFilters 5)
      "Bedrooms: Any number of bedrooms" false
  else
    (s, ⟨"error", subMenuRejectMsg16 message, none⟩)

/-- `_handle_price_selection`. -/
def handlePriceSelection (db : Except String (List Listing)) (now : Nat)
    (s : Session) (message : String) : Session × Response :=
  let t := strTrim message
  if t == "0" then subMenuZeroReply now s
  else if t == "1" then
    handleSearchResults now s
      (searchProperties db { emptyFilters with max_price := some 25000000 } 5)
      "Price range: Under ₦25M" false
  else if t == "2" then
    handleSearchResults now s
      (searchProperties db
        { emptyFilters with min_price := some 25000000, max_price := some 50000000 } 5)
      "Price range: ₦25M - ₦50M" false
  else if t == "3" then
    handleSearchResults now s
      (searchProperties db
        { emptyFilters with min_price := some 50000000, max_price := some 100000000 } 5)
      "Price range: ₦50M - ₦100M" false
  else if t == "4" then
    handleSearchResults now s
      (searchProperties db
        { emptyFilters with min_price := some 100000000, max_price := some 200000000 } 5)
      "Price range: ₦100M - ₦200M" false
  else if t == "5" then
    handleSearchResults now s
      (searchProperties db { emptyFilters with min_price := some 200000000 } 5)
      "Price range: Above ₦200M" false
  else if t == "6" then
    handleSearchResults now s (searchProperties db emptyFilters 5)
      "Price range: Any price" false
  else
    (s, ⟨"error", subMenuRejectMsg16 message, none⟩)

/-- `_handle_location_selection`. -/
def handleLocationSelection (db : Except String (List Listing)) (now : Nat)
    (s : Session) (message : String) : Session × Response :=
  let t := strTrim message
  if t == "0" then subMenuZeroReply now s
  else if t == "1" then
    handleSearchResults now s
      (searchProperties db { emptyFilters with city := some "Lagos" } 5)
      "Location: Lagos" false
  else if t == "2" then
    handleSearchResults now s
      (searchProperties db { emptyFilters with city := some "Abuja" } 5)
      "Location: Abuja" false
  else if t == "3" then
    handleSearchResults now s
      (searchProperties db { emptyFilters with city := some "Port Harcourt" } 5)
      "Location: Port Harcourt" false
  else if t == "4" then
    handleSearchResults now s
      (searchProperties db { emptyFilters with city := some "Kano" } 5)
      "Location: Kano" false
  else if t == "5" then
    handleSearchResults now s
      (searchProperties db { emptyFilters with city := some "Ibadan" } 5)
      "Location: Ibadan" false
  else if t == "6" then
    handleSearchResults now s (searchProperties db emptyFilters 5)
      "Location: All locations" false
  else
    (s, ⟨"error", subMenuRejectMsg16 message, none⟩)

/-- `_handle_sub_menu_selection`: dispatch on the stored `menu_type`;
unknown tags fall back to the main menu. -/
def handleSubMenuSelection (db : Except String (List Listing)) (now : Nat)
    (s : Session) (message : String) : Session × Response :=
  let mt := cdMenuType s.contextData
  if mt == some "property_type" then handlePropertyTypeSelection db now s message
  else if mt == some "bedrooms" then handleBedroomSelection db now s message
  else if mt == some "price" then handlePriceSelection db now s message
  else if mt == some "location" then handleLocationSelection db now s message
  else
    (goToMainMenu now s,
     ⟨"menu", "🔄 Returning to main menu...\n\n" ++ mainMenu, none⟩)

/-- `_get_context_response`: re-render (never re-query) the context just
restored by a pop.  Note that re-rendering `search_results` runs
`_handle_search_results` again with its `natural_query` default of
`False`, and re-pushes the frame via `set_context`. -/
def getContextResponse (now : Nat) (s : Session) : Session × Response :=
  if s.currentContext == "main" then
    (s, ⟨"menu", "🔙 Back to main menu\n\n" ++ mainMenu, none⟩)
  else if s.currentContext == "search_results" then
    handleSearchResults now s (cdResults s.contextData)
      (cdSearchDescription s.contextData) false
  else if s.currentContext == "property_detail" then
    showPropertyDetails now s (cdProperty s.contextData)
  else
    (goToMainMenu now s,
     ⟨"menu", "🔄 Returning to main menu...\n\n" ++ mainMenu, none⟩)

/-- `_process_contextual_message`: global commands first (reset, back,
quit, greetings), then dispatch on the current context.  The third
component records that `end_session` was called (the `quit` branch). -/
def processContextual (db : Except String (List Listing))
    (pyHash : String → Int) (now : Nat) (s : Session) (message : String) :
    Session × Response × Bool :=
  let ml := strTrim (strLower message)
  if ml ∈ menuWords then
    let s1 := goToMainMenu now s
    (s1, ⟨"menu", "👋 Welcome back " ++ s1.name ++ "!\n\n" ++ mainMenu, none⟩, false)
  else if ml == "back" then
    match goBack now s with
    | some s1 =>
      let p := getContextResponse now s1
      (p.1, p.2, false)
    | none =>
      let s1 := goToMainMenu now s
      (s1, ⟨"menu", "🔄 No previous step. Returning to main menu...\n\n" ++ mainMenu,
        none⟩, false)
  else if ml ∈ quitWords then
    (s, ⟨"end",
      "👋 Thanks for using INSPEKTA Property Search! Your session has ended.\n\nSend any message to start a new search.",
      none⟩, true)
  else if ml ∈ greetingWords then
    let s1 := goToMainMenu now s
    let greeting := (greetingTemplates s1.name).getD ((pyHash s1.userId) % 4).toNat ""
    (s1, ⟨"greeting", greeting ++ "\n\n" ++ mainMenu, none⟩, false)
  else if s.currentContext == "main" then
    let p := handleMainMenuEnhanced db now s message
    (p.1, p.2, false)
  else if s.currentContext == "search_results" then
    let p := handleSearchResultsSelection now s message
    (p.1, p.2, false)
  else if s.currentContext == "property_detail" then
    let p := handlePropertyDetailOptions s message
    (p.1, p.2, false)
  else if s.currentContext == "sub_menu" then
    let p := handleSubMenuSelection db now s message
    (p.1, p.2, false)
  else
    (goToMainMenu now s,
     ⟨"menu", "🔄 Returning to main menu...\n\n" ++ mainMenu, none⟩, false)

/-- `SessionManager.handle_user_message` on an existing session: the
name refresh of `get_or_create_session`, the activity stamp, the two
history appends around `_process_contextual_message`. -/
def handleUserMessage (db : Except String (List Listing))
    (pyHash : String → Int) (now : Nat) (s : Session)
    (userName message : String) : Session × Response × Bool :=
  let s0 := if userName ≠ "" ∧ s.name ≠ userName then { s with name := userName } else s
  let s1 := updateActivity now s0
  let s2 := addToHistory now s1 "user_message" message
  let r := processContextual db pyHash now s2 message
  let s3 := addToHistory now r.1 "bot_response" r.2.1.message
  (s3, r.2.1, r.2.2)

/-- One inbound webhook event plus the environment it runs in. -/
structure Inbound where
  userName : String
  text : String
  db : Except String (List Listing)
  now : Nat

/-- The session store at one user id after one inbound message: create on
first contact or after the two-hour inactivity sweep, drop on `quit`. -/
def stepStore (pyHash : String → Int) (uid : String) (st : Option Session)
    (i : Inbound) : Option Session :=
  let s0 :=
    match st with
    | none => freshSession uid i.userName i.now
    | some s => if i.now - s.lastActivity > 7200 then freshSession uid i.userName i.now else s
  let r := handleUserMessage i.db pyHash i.now s0 i.userName i.text
  if r.2.2 then none else some r.1

/-- The session store at one user id after any sequence of inbound
messages, starting untracked. -/
def runMessages (pyHash : String → Int) (uid : String)
    (inputs : List Inbound) : Option Session :=
  inputs.foldl (stepStore pyHash uid) none

/-- No frame on the navigation stack saves the `main` context. -/
def stackOK (s : Session) : Prop :=
  ∀ f ∈ s.navigationStack, f.context ≠ "main"

/-- `stackOK` lifted to the optional slot of the session store. -/
def stackOKOpt : Option Session → Prop
  | none => True
  | some s => stackOK s

/-- The valid-input range/format text each state's rejection template
shows, read off the source templates: `(1-8)` in `main`, `(1-N)` in
`search_results`, the two listed options in `property_detail`, and the
numeric menu ranges in the sub-menus. -/
def rangeHint (s : Session) : String :=
  if s.currentContext == "main" then "(1-8)"
  else if s.currentContext == "search_results" then
    rangeText (cdResults s.contextData).length
  else if s.currentContext == "property_detail" then
    "1️⃣ Show interest\n2️⃣ Schedule inspection"
  else if cdMenuType s.contextData == some "property_type" then "1-4 or 0"
  else "1-6 or 0"

/-! ## Concrete fixtures used by witnesses and counterexamples -/

/-- A sample active featured listing. -/
def wListing : Listing :=
  { id := "abc12345-6789", title := "Nice 3 Bedroom Apartment in Lekki",
    address := "12 Admiralty Way", city := "Lagos", state := "Lagos",
    price := 45000000, type := "APARTMENT", bedrooms := 3, bathrooms := 2,
    area := some 120, description := "Lovely serviced apartment.",
    status := "ACTIVE", featured := true, createdAt := 100 }

/-- A sample active non-featured listing. -/
def wListing2 : Listing :=
  { id := "def98765-4321", title := "Cozy Bungalow", address := "3 Garki Close",
    city := "Abuja", state := "FCT", price := 30000000, type := "HOUSE",
    bedrooms := 2, bathrooms := 2, area := some 90,
    description := "Quiet neighbourhood.", status := "ACTIVE",
    featured := false, createdAt := 200 }

/-- A sample gateway with two active rows. -/
def wDb : Except String (List Listing) := .ok [wListing2, wListing]

/-- A stand-in for the process's `hash` builtin. -/
def wHash : String → Int := fun _ => -7

/-- A session sitting in `search_results` holding one cached result of a
natural-language search (`natural_query = True`). -/
def wSearchSessionT : Session :=
  { userId := "2348012345678", name := "Ada", currentMenu := "main",
    searchFilters := emptyFilters, conversationStep := 0, lastActivity := 0,
    conversationHistory := [], selectedPropertyIds := [],
    currentContext := "search_results",
    contextData := .searchResults [wListing] "Natural search: \"flat in lagos\"" true,
    availableOptions := ["1", "back", "*"], navigationStack := [],
    lastSearchResults := [wListing] }

/-- The same session but with the cached search flagged as menu-driven
(`natural_query = False`). -/
def wSearchSessionF : Session :=
  { wSearchSessionT with
    contextData := .searchResults [wListing] "Properties in Lagos" false }

/-- A filter dict whose only key is `bedrooms: 0` (a falsy value). -/
def fW0 : Filters := { emptyFilters with bedrooms := some 0 }

/-! ## Substring lemmas -/

theorem listSub_nil (h : List Char) : listSub [] h = true := by
  induction h with
  | nil => rfl
  | cons c t ih => simp [listSub, List.isPrefixOf]

theorem listSub_append_left (n a b : List Char) (h : listSub n a = true) :
    listSub n (a ++ b) = true := by
  induction a with
  | nil =>
    simp only [listSub, List.isEmpty_iff] at h
    subst h
    simpa using listSub_nil b
  | cons c t ih =>
    simp only [listSub, Bool.or_eq_true] at h
    rcases h with h | h
    · have hp : n <+: c :: t := List.isPrefixOf_iff_prefix.mp h
      have hp2 : n <+: (c :: t) ++ b := hp.trans (List.prefix_append _ _)
      simp only [List.cons_append, listSub, Bool.or_eq_true]
      exact Or.inl (List.isPrefixOf_iff_prefix.mpr (by simpa using hp2))
    · simp only [List.cons_append, listSub, Bool.or_eq_true]
      exact Or.inr (ih h)

theorem listSub_append_right (n a b : List Char) (h : listSub n b = true) :
    listSub n (a ++ b) = true := by
  induction a with
  | nil => simpa using h
  | cons c t ih =>
    simp only [List.cons_append, listSub, Bool.or_eq_true]
    exact Or.inr ih

theorem listSub_self (n b : List Char) : listSub n (n ++ b) = true := by
  cases n with
  | nil => exact listSub_nil b
  | cons c t =>
    simp only [List.cons_append, listSub, Bool.or_eq_true]
    exact Or.inl (List.isPrefixOf_iff_prefix.mpr (List.prefix_append (c :: t) b))

theorem strSub_right (n a b : String) (h : strHasSub n b = true) :
    strHasSub n (a ++ b) = true := by
  simp only [strHasSub, String.data_append] at *
  exact listSub_append_right _ _ _ h

theorem strSub_left (n a b : String) (h : strHasSub n a = true) :
    strHasSub n (a ++ b) = true := by
  simp only [strHasSub, String.data_append] at *
  exact listSub_append_left _ _ _ h

theorem strSub_mid (a m b : String) : strHasSub m (a ++ m ++ b) = true := by
  simp only [strHasSub, String.data_append, List.append_assoc]
  exact listSub_append_right _ _ _ (listSub_self _ _)

/-! ## Field-preservation lemmas for the session operations -/

theorem setContext_fields (now : Nat) (s : Session) (c : String)
    (d : ContextData) (o : List String) :
    (setContext now s c d o).currentContext = c ∧
    (setContext now s c d o).contextData = d ∧
    (setContext now s c d o).availableOptions = o ∧
    (setContext now s c d o).currentMenu = s.currentMenu ∧
    (setContext now s c d o).conversationStep = s.conversationStep ∧
    (setContext now s c d o).conversationHistory = s.conversationHistory ∧
    (setContext now s c d o).name = s.name ∧
    (setContext now s c d o).userId = s.userId := by
  unfold setContext
  split <;> simp

theorem setContext_stack_push (now : Nat) (s : Session) (c : String)
    (d : ContextData) (o : List String) (h : s.currentContext ≠ "main") :
    (setContext now s c d o).navigationStack =
      ⟨s.currentContext, s.currentMenu, s.conversationStep, s.contextData,
        s.availableOptions⟩ :: s.navigationStack := by
  unfold setContext
  split <;> simp_all

theorem hist_setContext (now : Nat) (s : Session) (c : String) (d : ContextData)
    (o : List String) :
    (setContext now s c d o).conversationHistory = s.conversationHistory := by
  unfold setContext; split <;> rfl

theorem hist_goToMainMenu (now : Nat) (s : Session) :
    (goToMainMenu now s).conversationHistory = s.conversationHistory := rfl

theorem hist_goBack (now : Nat) (s s' : Session) (h : goBack now s = some s') :
    s'.conversationHistory = s.conversationHistory := by
  unfold goBack at h
  cases hs : s.navigationStack with
  | nil => rw [hs] at h; exact absurd h (by simp)
  | cons f rest => rw [hs] at h; cases h; rfl

theorem hist_handleSearchResults (now : Nat) (s : Session) (props : List Listing)
    (desc : String) (nq : Bool) :
    (handleSearchResults now s props desc nq).1.conversationHistory =
      s.conversationHistory := by
  unfold handleSearchResults
  split
  · rfl
  · exact hist_setContext ..

theorem hist_showPropertyDetails (now : Nat) (s : Session) (p : Listing) :
    (showPropertyDetails now s p).1.conversationHistory = s.conversationHistory :=
  hist_setContext ..

theorem hist_handleMainMenuEnhanced (db : Except String (List Listing))
    (now : Nat) (s : Session) (m : String) :
    (handleMainMenuEnhanced db now s m).1.conversationHistory =
      s.conversationHistory := by
  unfold handleMainMenuEnhanced
  dsimp only
  repeat' split
  all_goals first
    | exact hist_handleSearchResults ..
    | exact hist_setContext ..
    | rfl

theorem hist_handleSearchResultsSelection (now : Nat) (s : Session) (m : String) :
    (handleSearchResultsSelection now s m).1.conversationHistory =
      s.conversationHistory := by
  unfold handleSearchResultsSelection
  dsimp only
  repeat' split
  all_goals first
    | exact hist_showPropertyDetails ..
    | rfl

theorem hist_handlePropertyDetailOptions (s : Session) (m : String) :
    (handlePropertyDetailOptions s m).1.conversationHistory =
      s.conversationHistory := by
  unfold handlePropertyDetailOptions
  dsimp only
  repeat' split
  all_goals rfl

theorem hist_subMenuZeroReply (now : Nat) (s : Session) :
    (subMenuZeroReply now s).1.conversationHistory = s.conversationHistory := rfl

theorem hist_handlePropertyTypeSelection (db : Except String (List Listing))
    (now : Nat) (s : Session) (m : String) :
    (handlePropertyTypeSelection db now s m).1.conversationHistory =
      s.conversationHistory := by
  unfold handlePropertyTypeSelection
  dsimp only
  repeat' split
  all_goals first
    | exact hist_handleSearchResults ..
    | exact hist_subMenuZeroReply ..
    | rfl

theorem hist_handleBedroomSelection (db : Except String (List Listing))
    (now : Nat) (s : Session) (m : String) :
    (handleBedroomSelection db now s m).1.conversationHistory =
      s.conversationHistory := by
  unfold handleBedroomSelection
  dsimp only
  repeat' split
  all_goals first
    | exact hist_handleSearchResults ..
    | exact hist_subMenuZeroReply ..
    | rfl

theorem hist_handlePriceSelection (db : Except String (List Listing))
    (now : Nat) (s : Session) (m : String) :
    (handlePriceSelection db now s m).1.conversationHistory =
      s.conversationHistory := by
  unfold handlePriceSelection
  dsimp only
  repeat' split
  all_goals first
    | exact hist_handleSearchResults ..
    | exact hist_subMenuZeroReply ..
    | rfl

theorem hist_handleLocationSelection (db : Except String (List Listing))
    (now : Nat) (s : Session) (m : String) :
    (handleLocationSelection db now s m).1.conversationHistory =
      s.conversationHistory := by
  unfold handleLocationSelection
  dsimp only
  repeat' split
  all_goals first
    | exact hist_handleSearchResults ..
    | exact hist_subMenuZeroReply ..
    | rfl

theorem hist_handleSubMenuSelection (db : Except String (List Listing))
    (now : Nat) (s : Session) (m : String) :
    (handleSubMenuSelection db now s m).1.conversationHistory =
      s.conversationHistory := by
  unfold handleSubMenuSelection
  dsimp only
  split
  · exact hist_handlePropertyTypeSelection ..
  · split
    · exact hist_handleBedroomSelection ..
    · split
      · exact hist_handlePriceSelection ..
      · split
        · exact hist_handleLocationSelection ..
        · rfl

theorem hist_getContextResponse (now : Nat) (s : Session) :
    (getContextResponse now s).1.conversationHistory = s.conversationHistory := by
  unfold getContextResponse
  repeat' split
  all_goals first
    | exact hist_handleSearchResults ..
    | exact hist_showPropertyDetails ..
    | rfl

theorem hist_processContextual (db : Except String (List Listing))
    (pyHash : String → Int) (now : Nat) (s : Session) (m : String) :
    (processContextual db pyHash now s m).1.conversationHistory =
      s.conversationHistory := by
  unfold processContextual
  dsimp only
  repeat' split
  all_goals first
    | exact hist_handleMainMenuEnhanced ..
    | exact hist_handleSearchResultsSelection ..
    | exact hist_handlePropertyDetailOptions ..
    | exact hist_handleSubMenuSelection ..
    | (rename_i s1 h
       exact (hist_getContextResponse now s1).trans (hist_goBack now s s1 h))
    | rfl

/-! ## Navigation-stack invariant (no `main` frame is ever pushed) -/

theorem stackOK_of_stack_eq (s1 s2 : Session)
    (h : s2.navigationStack = s1.navigationStack) (hs : stackOK s1) :
    stackOK s2 := fun f hf => hs f (h ▸ hf)

theorem stackOK_goToMainMenu (now : Nat) (s : Session) :
    stackOK (goToMainMenu now s) := by
  intro f hf
  simp [goToMainMenu] at hf

theorem stackOK_setContext (now : Nat) (s : Session) (c : String)
    (d : ContextData) (o : List String) (hs : stackOK s) :
    stackOK (setContext now s c d o) := by
  intro f hf
  unfold setContext at hf
  dsimp only at hf
  split at hf
  · rename_i hc
    rcases List.mem_cons.mp hf with h | h
    · subst h; exact hc
    · exact hs f h
  · exact hs f hf

theorem stackOK_goBack (now : Nat) (s s' : Session) (hs : stackOK s)
    (he : goBack now s = some s') : stackOK s' := by
  unfold goBack at he
  cases hn : s.navigationStack with
  | nil => rw [hn] at he; exact absurd he (by simp)
  | cons f rest =>
    rw [hn] at he
    cases he
    intro g hg
    exact hs g (hn ▸ List.mem_cons_of_mem f hg)

theorem stackOK_handleSearchResults (now : Nat) (s : Session)
    (props : List Listing) (desc : String) (nq : Bool) (hs : stackOK s) :
    stackOK (handleSearchResults now s props desc nq).1 := by
  unfold handleSearchResults
  dsimp only
  split
  · exact hs
  · exact stackOK_setContext _ _ _ _ _ (stackOK_of_stack_eq s _ rfl hs)

theorem stackOK_showPropertyDetails (now : Nat) (s : Session) (p : Listing)
    (hs : stackOK s) : stackOK (showPropertyDetails now s p).1 :=
  stackOK_setContext _ _ _ _ _ hs

theorem stackOK_handleMainMenuEnhanced (db : Except String (List Listing))
    (now : Nat) (s : Session) (m : String) (hs : stackOK s) :
    stackOK (handleMainMenuEnhanced db now s m).1 := by
  unfold handleMainMenuEnhanced
  dsimp only
  repeat' split
  all_goals first
    | exact stackOK_handleSearchResults _ _ _ _ _ hs
    | exact stackOK_setContext _ _ _ _ _ hs
    | exact hs

theorem stackOK_handleSearchResultsSelection (now : Nat) (s : Session)
    (m : String) (hs : stackOK s) :
    stackOK (handleSearchResultsSelection now s m).1 := by
  unfold handleSearchResultsSelection
  dsimp only
  repeat' split
  all_goals first
    | exact stackOK_showPropertyDetails _ _ _ hs
    | exact hs

theorem stackOK_handlePropertyDetailOptions (s : Session) (m : String)
    (hs : stackOK s) : stackOK (handlePropertyDetailOptions s m).1 := by
  unfold handlePropertyDetailOptions
  dsimp only
  repeat' split
  all_goals exact hs

theorem stackOK_subMenuZeroReply (now : Nat) (s : Session) :
    stackOK (subMenuZeroReply now s).1 :=
  stackOK_goToMainMenu now s

theorem stackOK_handlePropertyTypeSelection (db : Except String (List Listing))
    (now : Nat) (s : Session) (m : String) (hs : stackOK s) :
    stackOK (handlePropertyTypeSelection db now s m).1 := by
  unfold handlePropertyTypeSelection
  dsimp only
  repeat' split
  all_goals first
    | exact stackOK_handleSearchResults _ _ _ _ _ hs
    | exact stackOK_subMenuZeroReply _ _
    | exact hs

theorem stackOK_handleBedroomSelection (db : Except String (List Listing))
    (now : Nat) (s : Session) (m : String) (hs : stackOK s) :
    stackOK (handleBedroomSelection db now s m).1 := by
  unfold handleBedroomSelection
  dsimp only
  repeat' split
  all_goals first
    | exact stackOK_handleSearchResults _ _ _ _ _ hs
    | exact stackOK_subMenuZeroReply _ _
    | exact hs

theorem stackOK_handlePriceSelection (db : Except String (List Listing))
    (now : Nat) (s : Session) (m : String) (hs : stackOK s) :
    stackOK (handlePriceSelection db now s m).1 := by
  unfold handlePriceSelection
  dsimp only
  repeat' split
  all_goals first
    | exact stackOK_handleSearchResults _ _ _ _ _ hs
    | exact stackOK_subMenuZeroReply _ _
    | exact hs

theorem stackOK_handleLocationSelection (db : Except String (List Listing))
    (now : Nat) (s : Session) (m : String) (hs : stackOK s) :
    stackOK (handleLocationSelection db now s m).1 := by
  unfold handleLocationSelection
  dsimp only
  repeat' split
  all_goals first
    | exact stackOK_handleSearchResults _ _ _ _ _ hs
    | exact stackOK_subMenuZeroReply _ _
    | exact hs

theorem stackOK_handleSubMenuSelection (db : Except String (List Listing))
    (now : Nat) (s : Session) (m : String) (hs : stackOK s) :
    stackOK (handleSubMenuSelection db now s m).1 := by
  unfold handleSubMenuSelection
  dsimp only
  split
  · exact stackOK_handlePropertyTypeSelection _ _ _ _ hs
  · split
    · exact stackOK_handleBedroomSelection _ _ _ _ hs
    · split
      · exact stackOK_handlePriceSelection _ _ _ _ hs
      · split
        · exact stackOK_handleLocationSelection _ _ _ _ hs
        · exact stackOK_goToMainMenu _ _

theorem stackOK_getContextResponse (now : Nat) (s : Session) (hs : stackOK s) :
    stackOK (getContextResponse now s).1 := by
  unfold getContextResponse
  repeat' split
  all_goals first
    | exact stackOK_handleSearchResults _ _ _ _ _ hs
    | exact stackOK_showPropertyDetails _ _ _ hs
    | exact stackOK_goToMainMenu _ _
    | exact hs

theorem stackOK_processContextual (db : Except String (List Listing))
    (pyHash : String → Int) (now : Nat) (s : Session) (m : String)
    (hs : stackOK s) : stackOK (processContextual db pyHash now s m).1 := by
  unfold processContextual
  dsimp only
  repeat' split
  all_goals first
    | exact stackOK_goToMainMenu _ _
    | exact hs
    | exact stackOK_handleMainMenuEnhanced _ _ _ _ hs
    | exact stackOK_handleSearchResultsSelection _ _ _ hs
    | exact stackOK_handlePropertyDetailOptions _ _ hs
    | exact stackOK_handleSubMenuSelection _ _ _ _ hs
    | (rename_i s1 h
       exact stackOK_getContextResponse now s1 (stackOK_goBack now s s1 hs h))

theorem stackOK_addToHistory (now : Nat) (s : Session) (t c : String)
    (hs : stackOK s) : stackOK (addToHistory now s t c) :=
  fun f hf => hs f hf

theorem stackOK_updateActivity (now : Nat) (s : Session) (hs : stackOK s) :
    stackOK (updateActivity now s) :=
  fun f hf => hs f hf

theorem stackOK_handleUserMessage (db : Except String (List Listing))
    (pyHash : String → Int) (now : Nat) (s : Session) (un m : String)
    (hs : stackOK s) : stackOK (handleUserMessage db pyHash now s un m).1 := by
  unfold handleUserMessage
  dsimp only
  apply stackOK_addToHistory
  apply stackOK_processContextual
  apply stackOK_addToHistory
  apply stackOK_updateActivity
  split
  · exact fun f hf => hs f hf
  · exact hs

theorem stackOK_freshSession (uid nm : String) (now : Nat) :
    stackOK (freshSession uid nm now) := by
  intro f hf
  simp [freshSession] at hf

theorem stackOK_stepStore (pyHash : String → Int) (uid : String)
    (st : Option Session) (i : Inbound) (hs : stackOKOpt st) :
    stackOKOpt (stepStore pyHash uid st i) := by
  unfold stepStore
  rcases st with _ | s
  · dsimp only
    split
    · trivial
    · exact stackOK_handleUserMessage _ _ _ _ _ _ (stackOK_freshSession _ _ _)
  · dsimp only
    split
    · split
      · trivial
      · exact stackOK_handleUserMessage _ _ _ _ _ _ (stackOK_freshSession _ _ _)
    · split
      · trivial
      · exact stackOK_handleUserMessage _ _ _ _ _ _ hs

/-! ## History-bound lemmas -/

theorem addToHistory_le20 (now : Nat) (s : Session) (t c : String) :
    (addToHistory now s t c).conversationHistory.length ≤ 20 := by
  unfold addToHistory
  dsimp only
  split
  · rename_i h
    rw [List.length_drop]
    omega
  · rename_i h
    omega

theorem addToHistory_suffix (now : Nat) (s : Session) (t c : String) :
    List.IsSuffix (addToHistory now s t c).conversationHistory
      (s.conversationHistory ++ [⟨now, t, c⟩]) := by
  unfold addToHistory
  dsimp only
  split
  · exact List.drop_suffix _ _
  · exact List.suffix_refl _

theorem isSuffix_append_same {α : Type} {l1 l2 : List α}
    (h : List.IsSuffix l1 l2) (l : List α) : List.IsSuffix (l1 ++ l) (l2 ++ l) := by
  obtain ⟨t, rfl⟩ := h
  exact ⟨t, (List.append_assoc t l1 l).symm⟩

theorem nameRefresh_hist (s : Session) (un : String) :
    ((if un ≠ "" ∧ s.name ≠ un then { s with name := un } else s) :
      Session).conversationHistory = s.conversationHistory := by
  split <;> rfl

/-- C6: after any handled message, the session's conversation history has
at most 20 entries, and what is kept is a suffix (oldest evicted first) of
the previous history extended by the two new records of this exchange. -/
theorem claim_c6 (db : Except String (List Listing)) (pyHash : String → Int)
    (now : Nat) (s : Session) (un m : String) :
    (handleUserMessage db pyHash now s un m).1.conversationHistory.length ≤ 20 ∧
    List.IsSuffix (handleUserMessage db pyHash now s un m).1.conversationHistory
      (s.conversationHistory ++
        [⟨now, "user_message", m⟩,
         ⟨now, "bot_response", (handleUserMessage db pyHash now s un m).2.1.message⟩]) := by
  constructor
  · unfold handleUserMessage
    dsimp only
    exact addToHistory_le20 ..
  · unfold handleUserMessage
    dsimp only
    have h2 := addToHistory_suffix now
      (processContextual db pyHash now
        (addToHistory now
          (updateActivity now
            (if un ≠ "" ∧ s.name ≠ un then { s with name := un } else s))
          "user_message" m) m).1
      "bot_response"
      (processContextual db pyHash now
        (addToHistory now
          (updateActivity now
            (if un ≠ "" ∧ s.name ≠ un then { s with name := un } else s))
          "user_message" m) m).2.1.message
    rw [hist_processContextual] at h2
    have h1 := addToHistory_suffix now
      (updateActivity now
        (if un ≠ "" ∧ s.name ≠ un then { s with name := un } else s))
      "user_message" m
    have h1' : List.IsSuffix
        (addToHistory now
          (updateActivity now
            (if un ≠ "" ∧ s.name ≠ un then { s with name := un } else s))
          "user_message" m).conversationHistory
        (s.conversationHistory ++ [⟨now, "user_message", m⟩]) := by
      have hh : (updateActivity now
          (if un ≠ "" ∧ s.name ≠ un then { s with name := un } else s) :
            Session).conversationHistory = s.conversationHistory :=
        nameRefresh_hist s un
      rw [show (updateActivity now
          (if un ≠ "" ∧ s.name ≠ un then { s with name := un } else s) :
            Session).conversationHistory = s.conversationHistory from hh] at h1
      exact h1
    have h3 := isSuffix_append_same h1' [(⟨now, "bot_response",
      (processContextual db pyHash now
        (addToHistory now
          (updateActivity now
            (if un ≠ "" ∧ s.name ≠ un then { s with name := un } else s))
          "user_message" m) m).2.1.message⟩ : HistEntry)]
    have h4 := h2.trans h3
    simpa [List.append_assoc] using h4

/-- C7: any of the reset commands, case-insensitively and after trimming,
returns the session to the `main` context with an empty navigation stack
and replies with the main menu. -/
theorem claim_c7 (db : Except String (List Listing)) (pyHash : String → Int)
    (now : Nat) (s : Session) (m : String)
    (h : strTrim (strLower m) ∈ menuWords) :
    (processContextual db pyHash now s m).1.currentContext = "main" ∧
    (processContextual db pyHash now s m).1.navigationStack = [] ∧
    (processContextual db pyHash now s m).2.1.rtype = "menu" ∧
    (processContextual db pyHash now s m).2.1.message =
      "👋 Welcome back " ++ s.name ++ "!\n\n" ++ mainMenu := by
  unfold processContextual
  dsimp only
  rw [if_pos h]
  exact ⟨rfl, rfl, rfl, rfl⟩

/-- Witness for C7 at the input `" MENU "` on a concrete session. -/
theorem claim_c7_witness :
    (processContextual wDb wHash 3 wSearchSessionT " MENU ").1.currentContext =
        "main" ∧
    (processContextual wDb wHash 3 wSearchSessionT " MENU ").1.navigationStack = [] ∧
    (processContextual wDb wHash 3 wSearchSessionT " MENU ").2.1.rtype = "menu" ∧
    (processContextual wDb wHash 3 wSearchSessionT " MENU ").2.1.message =
      "👋 Welcome back " ++ wSearchSessionT.name ++ "!\n\n" ++ mainMenu :=
  claim_c7 wDb wHash 3 wSearchSessionT " MENU " (by decide)

/-- Greeting words never collide with the earlier global commands. -/
theorem greet_not_global :
    ∀ x ∈ greetingWords, x ∉ menuWords ∧ x ≠ "back" ∧ x ∉ quitWords := by
  decide

/-- C8: starting untracked, after any sequence of inbound messages the
stored session (when one exists) has no `main` frame on its navigation
stack: `set_context` pushes the frame of the context being left and skips
the push when that context is `main`. -/
theorem claim_c8 (pyHash : String → Int) (uid : String)
    (inputs : List Inbound) : stackOKOpt (runMessages pyHash uid inputs) := by
  unfold runMessages
  have h : ∀ st, stackOKOpt st →
      stackOKOpt (inputs.foldl (stepStore pyHash uid) st) := by
    induction inputs with
    | nil => intro st h; exact h
    | cons i rest ih =>
      intro st h
      exact ih _ (stackOK_stepStore pyHash uid st i h)
  exact h none trivial

/-- C9: two greeting messages for the same user id (and displayed name)
always render the same canned template, the one indexed by the process
hash of the user id modulo the number of templates; the greeting resets
the session to `main` with an empty stack. -/
theorem claim_c9 (pyHash : String → Int) (db1 db2 : Except String (List Listing))
    (n1 n2 : Nat) (s1 s2 : Session) (m1 m2 : String)
    (hu : s1.userId = s2.userId) (hn : s1.name = s2.name)
    (h1 : strTrim (strLower m1) ∈ greetingWords)
    (h2 : strTrim (strLower m2) ∈ greetingWords) :
    (processContextual db1 pyHash n1 s1 m1).2.1.rtype = "greeting" ∧
    (processContextual db1 pyHash n1 s1 m1).2.1.message =
      (greetingTemplates s1.name).getD ((pyHash s1.userId) % 4).toNat "" ++
        "\n\n" ++ mainMenu ∧
    (processContextual db1 pyHash n1 s1 m1).2.1.message =
      (processContextual db2 pyHash n2 s2 m2).2.1.message ∧
    (processContextual db1 pyHash n1 s1 m1).1.currentContext = "main" ∧
    (processContextual db1 pyHash n1 s1 m1).1.navigationStack = [] := by
  obtain ⟨g1m, g1b, g1q⟩ := greet_not_global _ h1
  obtain ⟨g2m, g2b, g2q⟩ := greet_not_global _ h2
  have hb1 : ¬((strTrim (strLower m1) == "back") = true) := by
    simp [beq_iff_eq]; exact g1b
  have hb2 : ¬((strTrim (strLower m2) == "back") = true) := by
    simp [beq_iff_eq]; exact g2b
  unfold processContextual
  dsimp only
  rw [if_neg g1m, if_neg hb1, if_neg g1q, if_pos h1,
    if_neg g2m, if_neg hb2, if_neg g2q, if_pos h2]
  refine ⟨rfl, rfl, ?_, rfl, rfl⟩
  dsimp only [goToMainMenu]
  rw [hu, hn]

/-- Witness for C9: the same user greeting twice with different wording. -/
theorem claim_c9_witness :
    (processContextual wDb wHash 1 wSearchSessionT "  HELLO  ").2.1.rtype =
        "greeting" ∧
    (processContextual wDb wHash 1 wSearchSessionT "  HELLO  ").2.1.message =
      (greetingTemplates wSearchSessionT.name).getD
          ((wHash wSearchSessionT.userId) % 4).toNat "" ++ "\n\n" ++ mainMenu ∧
    (processContextual wDb wHash 1 wSearchSessionT "  HELLO  ").2.1.message =
      (processContextual wDb wHash 9 wSearchSessionF "hey").2.1.message ∧
    (processContextual wDb wHash 1 wSearchSessionT "  HELLO  ").1.currentContext =
        "main" ∧
    (processContextual wDb wHash 1 wSearchSessionT "  HELLO  ").1.navigationStack =
        [] :=
  claim_c9 wHash wDb wDb 1 9 wSearchSessionT wSearchSessionF "  HELLO  " "hey"
    rfl rfl (by decide) (by decide)

/-! ## Keyword-extractor price rules (C5) and falsy-filter dropping (C10) -/

/-- C5: when the bare currency-marker price pattern matches and `under`
does not occur anywhere in the lowercased message, the extractor returns
the 20% band `min = 0.8·(n·10⁶)`, `max = 1.2·(n·10⁶)`; when `under`
occurs anywhere, the band rule never fires (`min_price` stays unset). -/
theorem claim_c5 (m : String) (v : ℚ) :
    (findExactVal (strLower m).data = some v →
      strHasSub "under" (strLower m) = false →
      (extractSearchKeywords m).min_price = some (v * 1000000 * (4 / 5)) ∧
      (extractSearchKeywords m).max_price = some (v * 1000000 * (6 / 5))) ∧
    (strHasSub "under" (strLower m) = true →
      (extractSearchKeywords m).min_price = none) := by
  constructor
  · intro he hu
    unfold extractSearchKeywords
    dsimp only
    rw [he, hu]
    exact ⟨rfl, rfl⟩
  · intro hu
    unfold extractSearchKeywords
    dsimp only
    split
    · rw [hu]
      rfl
    · rfl

/-- Witness for C5 on the message `"₦5m"` (target five million). -/
theorem claim_c5_witness :
    findExactVal (strLower "₦5m").data = some (numVal ['5'] []) ∧
    strHasSub "under" (strLower "₦5m") = false ∧
    (extractSearchKeywords "₦5m").min_price =
      some (numVal ['5'] [] * 1000000 * (4 / 5)) ∧
    (extractSearchKeywords "₦5m").max_price =
      some (numVal ['5'] [] * 1000000 * (6 / 5)) ∧
    numVal ['5'] [] * 1000000 * (4 / 5 : ℚ) = 4000000 ∧
    numVal ['5'] [] * 1000000 * (6 / 5 : ℚ) = 6000000 :=
  ⟨rfl, by decide,
   ((claim_c5 "₦5m" (numVal ['5'] [])).1 rfl (by decide)).1,
   ((claim_c5 "₦5m" (numVal ['5'] [])).1 rfl (by decide)).2,
   by norm_num [numVal, digitsToNat, List.foldl, show '5'.toNat = 53 from rfl],
   by norm_num [numVal, digitsToNat, List.foldl, show '5'.toNat = 53 from rfl]⟩

theorem search_congr (db : Except String (List Listing)) (lim : Nat)
    (f f' : Filters) (h : ∀ l, matchesFilters f l = matchesFilters f' l) :
    searchProperties db f lim = searchProperties db f' lim := by
  unfold searchProperties
  cases db with
  | error e => rfl
  | ok rows => simp only [h]

/-- C10: a filter key holding a falsy value (0, 0.0 or the empty string)
contributes no predicate — the query is the one for the mapping without
that key; in particular `"0 bedroom ..."` extracts `bedrooms = 0` and the
executed query carries no bedroom constraint. -/
theorem claim_c10 (db : Except String (List Listing)) (lim : Nat) (f : Filters) :
    (f.bedrooms = some 0 →
      searchProperties db f lim =
        searchProperties db { f with bedrooms := none } lim) ∧
    (f.city = some "" →
      searchProperties db f lim = searchProperties db { f with city := none } lim) ∧
    (f.state = some "" →
      searchProperties db f lim = searchProperties db { f with state := none } lim) ∧
    (f.type = some "" →
      searchProperties db f lim = searchProperties db { f with type := none } lim) ∧
    (f.max_price = some 0 →
      searchProperties db f lim =
        searchProperties db { f with max_price := none } lim) ∧
    (f.min_price = some 0 →
      searchProperties db f lim =
        searchProperties db { f with min_price := none } lim) ∧
    (extractSearchKeywords "0 bedroom flat in Lagos").bedrooms = some 0 ∧
    searchProperties db (extractSearchKeywords "0 bedroom flat in Lagos") lim =
      searchProperties db
        { extractSearchKeywords "0 bedroom flat in Lagos" with bedrooms := none }
        lim := by
  have hbed : ∀ g : Filters, g.bedrooms = some 0 →
      searchProperties db g lim =
        searchProperties db { g with bedrooms := none } lim := by
    intro g hb
    apply search_congr
    intro l
    unfold matchesFilters
    rw [hb]
    rfl
  refine ⟨hbed f, ?_, ?_, ?_, ?_, ?_, by decide, hbed _ (by decide)⟩
  · intro hb
    apply search_congr
    intro l
    unfold matchesFilters
    rw [hb]
    rfl
  · intro hb
    apply search_congr
    intro l
    unfold matchesFilters
    rw [hb]
    rfl
  · intro hb
    apply search_congr
    intro l
    unfold matchesFilters
    rw [hb]
    rfl
  · intro hb
    apply search_congr
    intro l
    unfold matchesFilters
    rw [hb]
    rfl
  · intro hb
    apply search_congr
    intro l
    unfold matchesFilters
    rw [hb]
    rfl

/-- Witness for C10 on a concrete store and the `bedrooms: 0` mapping. -/
theorem claim_c10_witness :
    (extractSearchKeywords "0 bedroom flat in Lagos").bedrooms = some 0 ∧
    searchProperties wDb (extractSearchKeywords "0 bedroom flat in Lagos") 5 =
      searchProperties wDb
        { extractSearchKeywords "0 bedroom flat in Lagos" with bedrooms := none }
        5 ∧
    searchProperties wDb fW0 5 = searchProperties wDb { fW0 with bedrooms := none } 5 :=
  ⟨(claim_c10 wDb 5 fW0).2.2.2.2.2.2.1,
   (claim_c10 wDb 5 fW0).2.2.2.2.2.2.2,
   (claim_c10 wDb 5 fW0).1 rfl⟩

/-! ## Query-failure semantics (C2) and the search execution contract (C4) -/

set_option maxRecDepth 8000 in
/-- C2 as stated is false: on a raising gateway the user does NOT receive
a generic apology — `search_properties` swallows the exception and returns
an empty list, so the reply is the ordinary `no_results` message (though
the session is indeed left untouched). -/
theorem claim_c2_counterexample :
    (processContextual (.error "db connection failed") wHash 1
        (freshSession "2348000000000" "" 0) "1").2.1.rtype = "no_results" ∧
    (processContextual (.error "db connection failed") wHash 1
        (freshSession "2348000000000" "" 0) "1").2.1.rtype ≠ "error" ∧
    strHasSub "No properties found"
      (processContextual (.error "db connection failed") wHash 1
        (freshSession "2348000000000" "" 0) "1").2.1.message = true ∧
    strHasSub "Sorry"
      (processContextual (.error "db connection failed") wHash 1
        (freshSession "2348000000000" "" 0) "1").2.1.message = false ∧
    (processContextual (.error "db connection failed") wHash 1
        (freshSession "2348000000000" "" 0) "1").1 =
      freshSession "2348000000000" "" 0 := by
  refine ⟨by decide, by decide, by decide, by decide, by decide⟩

/-- C2 amended: a raising gateway is caught inside `search_properties`
(which logs and returns `[]`), so the user-visible reply is the
`no_results` message — not a generic apology — and the session's
conversation state is left exactly as it was. -/
theorem claim_c2_amended (e : String) (f : Filters) (lim : Nat)
    (pyHash : String → Int) (now : Nat) (s : Session) (desc : String)
    (nq : Bool) (h : s.currentContext = "main") :
    searchProperties (.error e) f lim = [] ∧
    (handleSearchResults now s [] desc nq).1 = s ∧
    (handleSearchResults now s [] desc nq).2.rtype = "no_results" ∧
    (processContextual (.error e) pyHash now s "1").1 = s ∧
    (processContextual (.error e) pyHash now s "1").2.1.rtype = "no_results" := by
  refine ⟨rfl, rfl, rfl, ?_, ?_⟩ <;>
  · unfold processContextual
    dsimp only
    rw [if_neg (by decide), if_neg (by decide), if_neg (by decide),
      if_neg (by decide),
      if_pos (show (s.currentContext == "main") = true by simp [h])]
    rfl

/-- Witness for C2 (amended) on a fresh session and a failing gateway. -/
theorem claim_c2_witness :
    searchProperties (.error "boom") fW0 7 = [] ∧
    (handleSearchResults 1 (freshSession "u" "" 0) [] "d" false).1 =
      freshSession "u" "" 0 ∧
    (handleSearchResults 1 (freshSession "u" "" 0) [] "d" false).2.rtype =
      "no_results" ∧
    (processContextual (.error "boom") wHash 1 (freshSession "u" "" 0) "1").1 =
      freshSession "u" "" 0 ∧
    (processContextual (.error "boom") wHash 1
      (freshSession "u" "" 0) "1").2.1.rtype = "no_results" :=
  claim_c2_amended "boom" fW0 7 wHash 1 (freshSession "u" "" 0) "d" false rfl

/-- C4: the search query keeps only `ACTIVE` rows matching every truthy
filter, sorts them featured-first then newest-first, and caps them at the
constant limit 5; with zero results the reply is the `no_results` message
re-showing the main menu and the session is untouched; with results the
ordered list is cached in context_data and the options are the index
strings plus `back` and `*`. -/
theorem claim_c4 (rows : List Listing) (f : Filters) (now : Nat) (s : Session)
    (desc : String) (nq : Bool) :
    (∀ l ∈ searchProperties (.ok rows) f 5,
      l.status = "ACTIVE" ∧ matchesFilters f l = true) ∧
    List.Sorted listingBefore (searchProperties (.ok rows) f 5) ∧
    (searchProperties (.ok rows) f 5).length ≤ 5 ∧
    (searchProperties (.ok rows) f 5 = [] →
      handleSearchResults now s (searchProperties (.ok rows) f 5) desc nq =
        (s, ⟨"no_results",
          "❌ No properties found for: *" ++ desc ++
            "*\n\nLet me show you our main search options:\n\n" ++ mainMenu,
          none⟩)) ∧
    (searchProperties (.ok rows) f 5 ≠ [] →
      (handleSearchResults now s (searchProperties (.ok rows) f 5) desc
          nq).1.currentContext = "search_results" ∧
      (handleSearchResults now s (searchProperties (.ok rows) f 5) desc
          nq).1.contextData =
        .searchResults (searchProperties (.ok rows) f 5) desc nq ∧
      (handleSearchResults now s (searchProperties (.ok rows) f 5) desc
          nq).1.availableOptions =
        ((List.range (searchProperties (.ok rows) f 5).length).map
          fun i => toString (i + 1)) ++ ["back", "*"] ∧
      (handleSearchResults now s (searchProperties (.ok rows) f 5) desc
          nq).2.rtype = "search_results") := by
  refine ⟨?_, ?_, ?_, ?_, ?_⟩
  · intro l hl
    have h1 : l ∈ List.insertionSort listingBefore
        (rows.filter fun x => (x.status == "ACTIVE") && matchesFilters f x) :=
      (List.take_sublist 5 _).subset hl
    have h2 : l ∈ rows.filter
        (fun x => (x.status == "ACTIVE") && matchesFilters f x) :=
      (List.perm_insertionSort listingBefore _).subset h1
    have h3 := (List.mem_filter.mp h2).2
    rw [Bool.and_eq_true] at h3
    exact ⟨beq_iff_eq.mp h3.1, h3.2⟩
  · exact List.Pairwise.sublist (List.take_sublist 5 _)
      (List.sorted_insertionSort listingBefore _)
  · unfold searchProperties
    dsimp only
    rw [List.length_take]
    omega
  · intro h
    rw [h]
    rfl
  · intro h
    have hne : (searchProperties (.ok rows) f 5).isEmpty = false := by
      simpa [List.isEmpty_iff] using h
    unfold handleSearchResults
    dsimp only
    rw [if_neg (by simp [hne])]
    refine ⟨(setContext_fields ..).1, (setContext_fields ..).2.1,
      (setContext_fields ..).2.2.1, rfl⟩

/-- Witness for C4 on the concrete two-row store with the Lagos preset. -/
theorem claim_c4_witness :
    (∀ l ∈ searchProperties (.ok [wListing2, wListing])
        { emptyFilters with city := some "Lagos" } 5,
      l.status = "ACTIVE" ∧
        matchesFilters { emptyFilters with city := some "Lagos" } l = true) ∧
    List.Sorted listingBefore
      (searchProperties (.ok [wListing2, wListing])
        { emptyFilters with city := some "Lagos" } 5) ∧
    (handleSearchResults 1 (freshSession "u" "" 0)
        (searchProperties (.ok [wListing2, wListing])
          { emptyFilters with city := some "Lagos" } 5)
        "Properties in Lagos" false).1.contextData =
      .searchResults
        (searchProperties (.ok [wListing2, wListing])
          { emptyFilters with city := some "Lagos" } 5)
        "Properties in Lagos" false ∧
    (handleSearchResults 1 (freshSession "u" "" 0)
        (searchProperties (.ok [wListing2, wListing])
          { emptyFilters with city := some "Lagos" } 5)
        "Properties in Lagos" false).1.availableOptions =
      ((List.range (searchProperties (.ok [wListing2, wListing])
          { emptyFilters with city := some "Lagos" } 5).length).map
        fun i => toString (i + 1)) ++ ["back", "*"] :=
  ⟨(claim_c4 [wListing2, wListing] { emptyFilters with city := some "Lagos" } 1
      (freshSession "u" "" 0) "Properties in Lagos" false).1,
   (claim_c4 [wListing2, wListing] { emptyFilters with city := some "Lagos" } 1
      (freshSession "u" "" 0) "Properties in Lagos" false).2.1,
   ((claim_c4 [wListing2, wListing] { emptyFilters with city := some "Lagos" } 1
      (freshSession "u" "" 0) "Properties in Lagos" false).2.2.2.2
      (by decide)).2.1,
   ((claim_c4 [wListing2, wListing] { emptyFilters with city := some "Lagos" } 1
      (freshSession "u" "" 0) "Properties in Lagos" false).2.2.2.2
      (by decide)).2.2.1⟩

/-! ## Back-navigation round trip (C1) -/

set_option maxRecDepth 8000 in
/-- C1 as stated is false: after selecting a listing and sending `back`,
re-rendering runs `_handle_search_results` with its `natural_query`
default of `False`, so when the cached search was a natural-language one
(`natural_query = True`) the restored `context_data` is NOT bit-for-bit
equal to the pre-push snapshot — its `natural_query` entry has flipped. -/
theorem claim_c1_counterexample :
    (processContextual wDb wHash 2
        (processContextual wDb wHash 1 wSearchSessionT "1").1
        "back").1.currentContext = wSearchSessionT.currentContext ∧
    (processContextual wDb wHash 2
        (processContextual wDb wHash 1 wSearchSessionT "1").1
        "back").1.contextData ≠ wSearchSessionT.contextData ∧
    (processContextual wDb wHash 2
        (processContextual wDb wHash 1 wSearchSessionT "1").1
        "back").1.contextData =
      .searchResults [wListing] "Natural search: \"flat in lagos\"" false := by
  exact ⟨by decide, by decide, by decide⟩

/-- C1 amended: for a `search_results` session whose cached context was
stored with `natural_query = False` (every menu-driven search), selecting
an in-range listing and sending `back` restores current_context,
current_menu, conversation_step, context_data and available_options
bit-for-bit, and the `back` processing never consults the gateway (its
result is independent of the database handle). -/
theorem claim_c1_amended (db1 db2 : Except String (List Listing))
    (pyHash : String → Int) (n1 n2 : Nat) (s : Session)
    (results : List Listing) (desc : String) (m : String)
    (h1 : s.currentContext = "search_results")
    (h2 : s.contextData = .searchResults results desc false)
    (h3 : s.availableOptions =
      ((List.range results.length).map fun i => toString (i + 1)) ++ ["back", "*"])
    (hm1 : strTrim (strLower m) ∉ menuWords)
    (hm2 : strTrim (strLower m) ≠ "back")
    (hm3 : strTrim (strLower m) ∉ quitWords)
    (hm4 : strTrim (strLower m) ∉ greetingWords)
    (hd : strIsDigit (strTrim m) = true)
    (hlo : 1 ≤ strToNat (strTrim m))
    (hhi : strToNat (strTrim m) ≤ results.length) :
    ((processContextual db2 pyHash n2
        (processContextual db1 pyHash n1 s m).1 "back").1.currentContext =
      s.currentContext ∧
     (processContextual db2 pyHash n2
        (processContextual db1 pyHash n1 s m).1 "back").1.currentMenu =
      s.currentMenu ∧
     (processContextual db2 pyHash n2
        (processContextual db1 pyHash n1 s m).1 "back").1.conversationStep =
      s.conversationStep ∧
     (processContextual db2 pyHash n2
        (processContextual db1 pyHash n1 s m).1 "back").1.contextData =
      s.contextData ∧
     (processContextual db2 pyHash n2
        (processContextual db1 pyHash n1 s m).1 "back").1.availableOptions =
      s.availableOptions) ∧
    (processContextual db1 pyHash n1 s m).1.currentContext =
      "property_detail" ∧
    (∀ db3 : Except String (List Listing),
      processContextual db3 pyHash n2
          (processContextual db1 pyHash n1 s m).1 "back" =
        processContextual db2 pyHash n2
          (processContextual db1 pyHash n1 s m).1 "back") := by
  obtain ⟨uid, nm, menu, sf, step, la, hist, spi, cc, cd, ao, ns, lsr⟩ := s
  dsimp only at h1 h2 h3 ⊢
  subst h1
  subst h2
  subst h3
  have hre : results ≠ [] := by
    intro h
    subst h
    simp at hhi
    omega
  have hstep1 : (processContextual db1 pyHash n1
      ⟨uid, nm, menu, sf, step, la, hist, spi, "search_results",
        .searchResults results desc false,
        ((List.range results.length).map fun i => toString (i + 1)) ++
          ["back", "*"],
        ns, lsr⟩ m).1 =
      ⟨uid, nm, menu, sf, step, n1, hist, spi, "property_detail",
        .propertyDetail (results.getD (strToNat (strTrim m) - 1) defaultListing),
        ["1", "2", "back", "*"],
        ⟨"search_results", menu, step, .searchResults results desc false,
          ((List.range results.length).map fun i => toString (i + 1)) ++
            ["back", "*"]⟩ :: ns,
        lsr⟩ := by
    unfold processContextual
    dsimp only
    rw [if_neg hm1, if_neg (by simp [beq_iff_eq]; exact hm2), if_neg hm3,
      if_neg hm4, if_neg (by decide), if_pos (by decide)]
    unfold handleSearchResultsSelection
    dsimp only
    rw [if_pos hd, if_pos ⟨hlo, hhi⟩]
    unfold showPropertyDetails setContext
    dsimp only
    rw [if_pos (by decide : ("search_results" : String) ≠ "main")]
    rfl
  have hstep2 : ∀ db3 : Except String (List Listing),
      processContextual db3 pyHash n2
        (⟨uid, nm, menu, sf, step, n1, hist, spi, "property_detail",
          .propertyDetail
            (results.getD (strToNat (strTrim m) - 1) defaultListing),
          ["1", "2", "back", "*"],
          ⟨"search_results", menu, step, .searchResults results desc false,
            ((List.range results.length).map fun i => toString (i + 1)) ++
              ["back", "*"]⟩ :: ns,
          lsr⟩ : Session) "back" =
      (⟨uid, nm, menu, sf, step, n2, hist, spi, "search_results",
         .searchResults results desc false,
         ((List.range results.length).map fun i => toString (i + 1)) ++
           ["back", "*"],
         ⟨"search_results", menu, step, .searchResults results desc false,
           ((List.range results.length).map fun i => toString (i + 1)) ++
             ["back", "*"]⟩ :: ns,
         results⟩,
       ⟨"search_results", searchResultsMessage results desc,
         some results.length⟩,
       false) := by
    intro db3
    unfold processContextual
    dsimp only
    rw [if_neg (by decide),
      if_pos (by decide : (strTrim (strLower "back") == "back") = true)]
    unfold goBack
    dsimp only
    unfold getContextResponse
    dsimp only
    rw [if_neg (by decide),
      if_pos (by decide : (("search_results" : String) == "search_results") = true)]
    unfold handleSearchResults
    dsimp only
    rw [if_neg (by simp [cdResults]; exact hre)]
    unfold setContext
    dsimp only
    rw [if_pos (by decide : ("search_results" : String) ≠ "main")]
    rfl
  rw [hstep1]
  refine ⟨⟨?_, ?_, ?_, ?_, ?_⟩, rfl, ?_⟩
  · rw [hstep2 db2]
  · rw [hstep2 db2]
  · rw [hstep2 db2]
  · rw [hstep2 db2]
  · rw [hstep2 db2]
  · intro db3
    rw [hstep2 db3, hstep2 db2]

set_option maxRecDepth 8000 in
/-- Witness for C1 (amended): selecting listing 1 from a menu-driven
`search_results` session and going back restores the five fields. -/
theorem claim_c1_witness :
    ((processContextual wDb wHash 2
        (processContextual wDb wHash 1 wSearchSessionF "1").1
        "back").1.currentContext = wSearchSessionF.currentContext ∧
     (processContextual wDb wHash 2
        (processContextual wDb wHash 1 wSearchSessionF "1").1
        "back").1.currentMenu = wSearchSessionF.currentMenu ∧
     (processContextual wDb wHash 2
        (processContextual wDb wHash 1 wSearchSessionF "1").1
        "back").1.conversationStep = wSearchSessionF.conversationStep ∧
     (processContextual wDb wHash 2
        (processContextual wDb wHash 1 wSearchSessionF "1").1
        "back").1.contextData = wSearchSessionF.contextData ∧
     (processContextual wDb wHash 2
        (processContextual wDb wHash 1 wSearchSessionF "1").1
        "back").1.availableOptions = wSearchSessionF.availableOptions) ∧
    (processContextual wDb wHash 1 wSearchSessionF "1").1.currentContext =
      "property_detail" ∧
    (∀ db3 : Except String (List Listing),
      processContextual db3 wHash 2
          (processContextual wDb wHash 1 wSearchSessionF "1").1 "back" =
        processContextual wDb wHash 2
          (processContextual wDb wHash 1 wSearchSessionF "1").1 "back") :=
  claim_c1_amended wDb wDb wHash 1 2 wSearchSessionF [wListing]
    "Properties in Lagos" "1" rfl rfl (by decide) (by decide) (by decide)
    (by decide) (by decide) (by decide) (by decide) (by decide)

/-! ## Rejection-message contract (C3) -/

theorem hsr_rtype_ne (now : Nat) (s : Session) (props : List Listing)
    (desc : String) (nq : Bool) :
    (handleSearchResults now s props desc nq).2.rtype ≠ "error" := by
  unfold handleSearchResults
  dsimp only
  split
  · simp
  · simp

theorem spd_rtype_ne (now : Nat) (s : Session) (p : Listing) :
    (showPropertyDetails now s p).2.rtype ≠ "error" := by
  unfold showPropertyDetails
  dsimp only
  simp

theorem gcr_rtype_ne (now : Nat) (s : Session) :
    (getContextResponse now s).2.rtype ≠ "error" := by
  unfold getContextResponse
  repeat' split
  all_goals first
    | exact hsr_rtype_ne _ _ _ _ _
    | exact spd_rtype_ne _ _ _
    | simp

theorem main_shape (db : Except String (List Listing)) (now : Nat)
    (s : Session) (m : String) :
    (handleMainMenuEnhanced db now s m).2.rtype ≠ "error" ∨
    (handleMainMenuEnhanced db now s m).2 = ⟨"error", mainRejectMsg m, none⟩ := by
  unfold handleMainMenuEnhanced
  dsimp only
  repeat' split
  all_goals first
    | exact Or.inl (hsr_rtype_ne _ _ _ _ _)
    | exact Or.inl (zero_rtype_ne _ _)
    | exact Or.inr rfl
    | (refine Or.inl ?_
       simp
       done)

theorem search_shape (now : Nat) (s : Session) (m : String) :
    (handleSearchResultsSelection now s m).2.rtype ≠ "error" ∨
    (handleSearchResultsSelection now s m).2 =
      ⟨"error", searchRejectMsg m (cdResults s.contextData).length, none⟩ := by
  unfold handleSearchResultsSelection
  dsimp only
  repeat' split
  all_goals first
    | exact Or.inl (spd_rtype_ne _ _ _)
    | exact Or.inr rfl
    | (refine Or.inl ?_
       simp
       done)

theorem detail_shape (s : Session) (m : String) :
    (handlePropertyDetailOptions s m).2.rtype ≠ "error" ∨
    (handlePropertyDetailOptions s m).2 = ⟨"error", detailRejectMsg m, none⟩ := by
  unfold handlePropertyDetailOptions
  dsimp only
  repeat' split
  all_goals first
    | exact Or.inr rfl
    | (refine Or.inl ?_
       simp
       done)

theorem zero_rtype_ne (now : Nat) (s : Session) :
    (subMenuZeroReply now s).2.rtype ≠ "error" := by
  unfold subMenuZeroReply
  simp

theorem ptype_shape (db : Except String (List Listing)) (now : Nat)
    (s : Session) (m : String) :
    (handlePropertyTypeSelection db now s m).2.rtype ≠ "error" ∨
    (handlePropertyTypeSelection db now s m).2 =
      ⟨"error", subMenuRejectMsg14 m, none⟩ := by
  unfold handlePropertyTypeSelection
  dsimp only
  repeat' split
  all_goals first
    | exact Or.inl (hsr_rtype_ne _ _ _ _ _)
    | exact Or.inl (zero_rtype_ne _ _)
    | exact Or.inr rfl
    | (refine Or.inl ?_
       simp
       done)

theorem bedroom_shape (db : Except String (List Listing)) (now : Nat)
    (s : Session) (m : String) :
    (handleBedroomSelection db now s m).2.rtype ≠ "error" ∨
    (handleBedroomSelection db now s m).2 =
      ⟨"error", subMenuRejectMsg16 m, none⟩ := by
  unfold handleBedroomSelection
  dsimp only
  repeat' split
  all_goals first
    | exact Or.inl (hsr_rtype_ne _ _ _ _ _)
    | exact Or.inl (zero_rtype_ne _ _)
    | exact Or.inr rfl
    | (refine Or.inl ?_
       simp
       done)

theorem price_shape (db : Except String (List Listing)) (now : Nat)
    (s : Session) (m : String) :
    (handlePriceSelection db now s m).2.rtype ≠ "error" ∨
    (handlePriceSelection db now s m).2 =
      ⟨"error", subMenuRejectMsg16 m, none⟩ := by
  unfold handlePriceSelection
  dsimp only
  repeat' split
  all_goals first
    | exact Or.inl (hsr_rtype_ne _ _ _ _ _)
    | exact Or.inl (zero_rtype_ne _ _)
    | exact Or.inr rfl
    | (refine Or.inl ?_
       simp
       done)

theorem location_shape (db : Except String (List Listing)) (now : Nat)
    (s : Session) (m : String) :
    (handleLocationSelection db now s m).2.rtype ≠ "error" ∨
    (handleLocationSelection db now s m).2 =
      ⟨"error", subMenuRejectMsg16 m, none⟩ := by
  unfold handleLocationSelection
  dsimp only
  repeat' split
  all_goals first
    | exact Or.inl (hsr_rtype_ne _ _ _ _ _)
    | exact Or.inl (zero_rtype_ne _ _)
    | exact Or.inr rfl
    | (refine Or.inl ?_
       simp
       done)

theorem submenu_shape (db : Except String (List Listing)) (now : Nat)
    (s : Session) (m : String) :
    (handleSubMenuSelection db now s m).2.rtype ≠ "error" ∨
    ((cdMenuType s.contextData == some "property_type") = true ∧
      (handleSubMenuSelection db now s m).2 =
        ⟨"error", subMenuRejectMsg14 m, none⟩) ∨
    ((cdMenuType s.contextData == some "property_type") = false ∧
      (handleSubMenuSelection db now s m).2 =
        ⟨"error", subMenuRejectMsg16 m, none⟩) := by
  unfold handleSubMenuSelection
  dsimp only
  split
  · rename_i hp
    rcases ptype_shape db now s m with h | h
    · exact Or.inl h
    · exact Or.inr (Or.inl ⟨hp, h⟩)
  · rename_i hp
    have hp' : (cdMenuType s.contextData == some "property_type") = false := by
      simpa using hp
    split
    · rcases bedroom_shape db now s m with h | h
      · exact Or.inl h
      · exact Or.inr (Or.inr ⟨hp', h⟩)
    · split
      · rcases price_shape db now s m with h | h
        · exact Or.inl h
        · exact Or.inr (Or.inr ⟨hp', h⟩)
      · split
        · rcases location_shape db now s m with h | h
          · exact Or.inl h
          · exact Or.inr (Or.inr ⟨hp', h⟩)
        · exact Or.inl (by simp)

theorem process_error_shape (db : Except String (List Listing))
    (pyHash : String → Int) (now : Nat) (s : Session) (m : String) :
    (processContextual db pyHash now s m).2.1.rtype ≠ "error" ∨
    ((s.currentContext == "main") = true ∧
      (processContextual db pyHash now s m).2.1 =
        ⟨"error", mainRejectMsg m, none⟩) ∨
    ((s.currentContext == "main") = false ∧
      (s.currentContext == "search_results") = true ∧
      (processContextual db pyHash now s m).2.1 =
        ⟨"error", searchRejectMsg m (cdResults s.contextData).length, none⟩) ∨
    ((s.currentContext == "main") = false ∧
      (s.currentContext == "search_results") = false ∧
      (s.currentContext == "property_detail") = true ∧
      (processContextual db pyHash now s m).2.1 =
        ⟨"error", detailRejectMsg m, none⟩) ∨
    ((s.currentContext == "main") = false ∧
      (s.currentContext == "search_results") = false ∧
      (s.currentContext == "property_detail") = false ∧
      (cdMenuType s.contextData == some "property_type") = true ∧
      (processContextual db pyHash now s m).2.1 =
        ⟨"error", subMenuRejectMsg14 m, none⟩) ∨
    ((s.currentContext == "main") = false ∧
      (s.currentContext == "search_results") = false ∧
      (s.currentContext == "property_detail") = false ∧
      (cdMenuType s.contextData == some "property_type") = false ∧
      (processContextual db pyHash now s m).2.1 =
        ⟨"error", subMenuRejectMsg16 m, none⟩) := by
  unfold processContextual
  dsimp only
  split
  · exact Or.inl (by simp)
  · split
    · split
      · rename_i s1 heq
        exact Or.inl (gcr_rtype_ne now s1)
      · exact Or.inl (by simp)
    · split
      · exact Or.inl (by simp)
      · split
        · exact Or.inl (by simp)
        · split
          · rename_i hmain
            rcases main_shape db now s m with h | h
            · exact Or.inl h
            · exact Or.inr (Or.inl ⟨hmain, h⟩)
          · rename_i hmain
            have hmain' : (s.currentContext == "main") = false := by
              simpa using hmain
            split
            · rename_i hsearch
              rcases search_shape now s m with h | h
              · exact Or.inl h
              · exact Or.inr (Or.inr (Or.inl ⟨hmain', hsearch, h⟩))
            · rename_i hsearch
              have hsearch' : (s.currentContext == "search_results") = false := by
                simpa using hsearch
              split
              · rename_i hdetail
                rcases detail_shape s m with h | h
                · exact Or.inl h
                · exact Or.inr (Or.inr (Or.inr (Or.inl
                    ⟨hmain', hsearch', hdetail, h⟩)))
              · rename_i hdetail
                have hdetail' :
                    (s.currentContext == "property_detail") = false := by
                  simpa using hdetail
                split
                · rcases submenu_shape db now s m with h | ⟨hp, h⟩ | ⟨hp, h⟩
                  · exact Or.inl h
                  · exact Or.inr (Or.inr (Or.inr (Or.inr (Or.inl
                      ⟨hmain', hsearch', hdetail', hp, h⟩))))
                  · exact Or.inr (Or.inr (Or.inr (Or.inr (Or.inr
                      ⟨hmain', hsearch', hdetail', hp, h⟩))))
                · exact Or.inl (by simp)

theorem mainReject_has (m : String) :
    strHasSub m (mainRejectMsg m) = true ∧
    strHasSub "(1-8)" (mainRejectMsg m) = true ∧
    strHasSub "menu" (mainRejectMsg m) = true ∧
    strHasSub "back" (mainRejectMsg m) = true := by
  unfold mainRejectMsg
  refine ⟨?_, ?_, ?_, ?_⟩ <;>
    simp only [strHasSub, String.data_append, List.append_assoc]
  · exact listSub_append_right _ _ _ (listSub_self _ _)
  · exact listSub_append_right _ _ _ (listSub_append_right _ _ _
      (listSub_append_left _ _ _ (by decide)))
  · exact listSub_append_right _ _ _ (listSub_append_right _ _ _
      (listSub_append_left _ _ _ (by decide)))
  · exact listSub_append_right _ _ _ (listSub_append_right _ _ _
      (listSub_append_left _ _ _ (by decide)))

theorem searchReject_has (m : String) (n : Nat) :
    strHasSub m (searchRejectMsg m n) = true ∧
    strHasSub (rangeText n) (searchRejectMsg m n) = true ∧
    strHasSub "menu" (searchRejectMsg m n) = true ∧
    strHasSub "back" (searchRejectMsg m n) = true := by
  unfold searchRejectMsg
  refine ⟨?_, ?_, ?_, ?_⟩ <;>
    simp only [strHasSub, String.data_append, List.append_assoc]
  · exact listSub_append_right _ _ _ (listSub_self _ _)
  · exact listSub_append_right _ _ _ (listSub_append_right _ _ _
      (listSub_append_right _ _ _ (listSub_self _ _)))
  · exact listSub_append_right _ _ _ (listSub_append_right _ _ _
      (listSub_append_right _ _ _ (listSub_append_right _ _ _ (by decide))))
  · exact listSub_append_right _ _ _ (listSub_append_right _ _ _
      (listSub_append_right _ _ _ (listSub_append_right _ _ _ (by decide))))

theorem detailReject_has (m : String) :
    strHasSub m (detailRejectMsg m) = true ∧
    strHasSub "1️⃣ Show interest\n2️⃣ Schedule inspection"
      (detailRejectMsg m) = true ∧
    strHasSub "menu" (detailRejectMsg m) = true ∧
    strHasSub "back" (detailRejectMsg m) = true := by
  unfold detailRejectMsg
  refine ⟨?_, ?_, ?_, ?_⟩ <;>
    simp only [strHasSub, String.data_append, List.append_assoc]
  · exact listSub_append_right _ _ _ (listSub_self _ _)
  · exact listSub_append_right _ _ _ (listSub_append_right _ _ _ (by decide))
  · exact listSub_append_right _ _ _ (listSub_append_right _ _ _ (by decide))
  · exact listSub_append_right _ _ _ (listSub_append_right _ _ _ (by decide))

theorem subMenu14_has (m : String) :
    strHasSub m (subMenuRejectMsg14 m) = true ∧
    strHasSub "1-4 or 0" (subMenuRejectMsg14 m) = true ∧
    strHasSub "menu" (subMenuRejectMsg14 m) = true ∧
    strHasSub "back" (subMenuRejectMsg14 m) = true := by
  unfold subMenuRejectMsg14
  refine ⟨?_, ?_, ?_, ?_⟩ <;>
    simp only [strHasSub, String.data_append, List.append_assoc]
  · exact listSub_append_right _ _ _ (listSub_self _ _)
  · exact listSub_append_right _ _ _ (listSub_append_right _ _ _ (by decide))
  · exact listSub_append_right _ _ _ (listSub_append_right _ _ _ (by decide))
  · exact listSub_append_right _ _ _ (listSub_append_right _ _ _ (by decide))

theorem subMenu16_has (m : String) :
    strHasSub m (subMenuRejectMsg16 m) = true ∧
    strHasSub "1-6 or 0" (subMenuRejectMsg16 m) = true ∧
    strHasSub "menu" (subMenuRejectMsg16 m) = true ∧
    strHasSub "back" (subMenuRejectMsg16 m) = true := by
  unfold subMenuRejectMsg16
  refine ⟨?_, ?_, ?_, ?_⟩ <;>
    simp only [strHasSub, String.data_append, List.append_assoc]
  · exact listSub_append_right _ _ _ (listSub_self _ _)
  · exact listSub_append_right _ _ _ (listSub_append_right _ _ _ (by decide))
  · exact listSub_append_right _ _ _ (listSub_append_right _ _ _ (by decide))
  · exact listSub_append_right _ _ _ (listSub_append_right _ _ _ (by decide))

set_option maxRecDepth 8000 in
/-- C3 as stated is false in its `main`-state exception: the main-menu
rejection message offers BOTH escape hatches — it contains the literal
`back` command text, not only `menu`. -/
theorem claim_c3_counterexample :
    (freshSession "u" "" 0).currentContext = "main" ∧
    (processContextual wDb wHash 1 (freshSession "u" "" 0) "xyzq").2.1.rtype =
      "error" ∧
    strHasSub "back"
      (processContextual wDb wHash 1
        (freshSession "u" "" 0) "xyzq").2.1.message = true ∧
    strHasSub "Type *back* to go back one step"
      (processContextual wDb wHash 1
        (freshSession "u" "" 0) "xyzq").2.1.message = true := by
  exact ⟨rfl, by decide, by decide, by decide⟩

/-- C3 amended: EVERY rejection reply — the `main` state included —
contains the literal echoed input, the valid input range/format for the
current state, and both escape hatches `menu` and `back`. -/
theorem claim_c3_amended (db : Except String (List Listing))
    (pyHash : String → Int) (now : Nat) (s : Session) (m : String)
    (herr : (processContextual db pyHash now s m).2.1.rtype = "error") :
    strHasSub m (processContextual db pyHash now s m).2.1.message = true ∧
    strHasSub (rangeHint s)
      (processContextual db pyHash now s m).2.1.message = true ∧
    strHasSub "menu" (processContextual db pyHash now s m).2.1.message = true ∧
    strHasSub "back" (processContextual db pyHash now s m).2.1.message = true := by
  rcases process_error_shape db pyHash now s m with h | ⟨hm, he⟩ |
    ⟨hm, hs, he⟩ | ⟨hm, hs, hd, he⟩ | ⟨hm, hs, hd, hp, he⟩ |
    ⟨hm, hs, hd, hp, he⟩
  · exact absurd herr h
  · rw [he]
    unfold rangeHint
    rw [if_pos hm]
    exact mainReject_has m
  · rw [he]
    unfold rangeHint
    rw [if_neg (by simp [hm]), if_pos hs]
    exact searchReject_has m (cdResults s.contextData).length
  · rw [he]
    unfold rangeHint
    rw [if_neg (by simp [hm]), if_neg (by simp [hs]), if_pos hd]
    exact detailReject_has m
  · rw [he]
    unfold rangeHint
    rw [if_neg (by simp [hm]), if_neg (by simp [hs]), if_neg (by simp [hd]),
      if_pos hp]
    exact subMenu14_has m
  · rw [he]
    unfold rangeHint
    rw [if_neg (by simp [hm]), if_neg (by simp [hs]), if_neg (by simp [hd]),
      if_neg (by simp [hp])]
    exact subMenu16_has m

set_option maxRecDepth 8000 in
/-- Witness for C3 (amended): the `main`-state rejection of `"xyzq"`. -/
theorem claim_c3_witness :
    strHasSub "xyzq"
      (processContextual wDb wHash 1
        (freshSession "u" "" 0) "xyzq").2.1.message = true ∧
    strHasSub (rangeHint (freshSession "u" "" 0))
      (processContextual wDb wHash 1
        (freshSession "u" "" 0) "xyzq").2.1.message = true ∧
    strHasSub "menu"
      (processContextual wDb wHash 1
        (freshSession "u" "" 0) "xyzq").2.1.message = true ∧
    strHasSub "back"
      (processContextual wDb wHash 1
        (freshSession "u" "" 0) "xyzq").2.1.message = true :=
  claim_c3_amended wDb wHash 1 (freshSession "u" "" 0) "xyzq" (by decide)

end Inspekta
